import Mathlib

/-!
Verification of the cleaning-and-validation engine of the ETLcitashospital
repository (a pandas batch data-quality pipeline over a two-table hospital
dataset).  The definitions below are a shallow embedding of

  * `scripts/02_limpieza.py`  (the `DataCleaner` class: field normalisers,
    the intelligent date corrector `corregir_fecha_inteligente`, cost and
    status imputation, the cleaning pipeline), and
  * `validators/integrity_validator.py` / `validators/data_validator.py`
    (the `IntegrityValidator` and `DataValidator` check methods).

Modelling conventions:
  * pandas nulls (`NaN` / `NaT` / `None`) are `Option.none` or a dedicated
    null constructor;
  * numeric cell values are `Int` / `Rat` (the pipeline never exercises
    float-specific behaviour in the properties proved here);
  * Python string functions (`strip`, `lower`, `upper`, `capitalize`,
    `split`, `int(...)`, `re.split`) are modelled character-exactly for the
    ASCII range, which is the range the data and the regexes use;
  * `pd.Timestamp.now()` (the processing time) is passed in explicitly as
    the current calendar date `hoy`, with the convention that the actual
    processing instant lies strictly after midnight of `hoy`, so that a
    midnight timestamp `t` satisfies `t < now` iff `t`'s date `≤ hoy`.
-/


/-! ## Characters: Python `str.lower` / `str.upper` / whitespace (ASCII) -/

/-- ASCII upper-to-lower pairs, used by the model of `str.lower()`. -/
def lowerTable : List (Char × Char) :=
  [('A','a'), ('B','b'), ('C','c'), ('D','d'), ('E','e'), ('F','f'), ('G','g'),
   ('H','h'), ('I','i'), ('J','j'), ('K','k'), ('L','l'), ('M','m'), ('N','n'),
   ('O','o'), ('P','p'), ('Q','q'), ('R','r'), ('S','s'), ('T','t'), ('U','u'),
   ('V','v'), ('W','w'), ('X','x'), ('Y','y'), ('Z','z')]

/-- ASCII lower-to-upper pairs, used by the model of `str.upper()`. -/
def upperTable : List (Char × Char) :=
  lowerTable.map (fun p => (p.2, p.1))

/-- `str.lower()` on one character (ASCII model). -/
def chLower (c : Char) : Char :=
  ((lowerTable.find? (fun p => p.1 = c)).map (fun p => p.2)).getD c

/-- `str.upper()` on one character (ASCII model). -/
def chUpper (c : Char) : Char :=
  ((upperTable.find? (fun p => p.1 = c)).map (fun p => p.2)).getD c

/-- The whitespace characters stripped by Python `str.strip()` and used as
separators by `str.split()` (ASCII part). -/
def pyIsSpace (c : Char) : Bool :=
  c = ' ' ∨ c = '\t' ∨ c = '\n' ∨ c = '\x0d' ∨ c = '\x0b' ∨ c = '\x0c'

/-! ## Python string primitives on `List Char` -/

/-- Python `str.strip()`: drop leading and trailing whitespace. -/
def pyStrip (l : List Char) : List Char :=
  ((l.dropWhile pyIsSpace).reverse.dropWhile pyIsSpace).reverse

/-- Split on every character satisfying `p`, keeping empty pieces — the
behaviour of `re.split` with a single-character-class pattern. -/
def splitOnPred (p : Char → Bool) : List Char → List (List Char)
  | [] => [[]]
  | c :: rest =>
      if p c then [] :: splitOnPred p rest
      else
        match splitOnPred p rest with
        | [] => [[c]]
        | h :: t => (c :: h) :: t

/-- Python `str.split()` with no separator: split on whitespace runs,
dropping empty pieces. -/
def pySplitWs (l : List Char) : List (List Char) :=
  (splitOnPred pyIsSpace l).filter (fun t => ¬t.isEmpty)

/-- The ten decimal digit characters. -/
def digitChars : List Char :=
  ['0', '1', '2', '3', '4', '5', '6', '7', '8', '9']

/-- The character of one decimal digit. -/
def digitChar (d : Nat) : Char :=
  digitChars.getD d '0'

/-- Decimal rendering, most significant digit first (fuel-driven). -/
def natCharsAux : Nat → Nat → List Char
  | 0, _ => []
  | fuel + 1, n =>
      if n < 10 then [digitChar n]
      else natCharsAux fuel (n / 10) ++ [digitChar (n % 10)]

/-- Decimal-digit characters of a natural number (`0 ↦ "0"`). -/
def natChars (n : Nat) : List Char :=
  natCharsAux (n + 1) n

/-- Parse a nonempty all-digit character list as a natural number. -/
def digitsToNat : List Char → Option Nat
  | [] => none
  | l =>
      if l.all Char.isDigit then
        some (l.foldl (fun acc c => acc * 10 + (c.toNat - 48)) 0)
      else none

/-- Python `int(s)`: optional surrounding whitespace, optional sign, then a
nonempty digit string (digit-group underscores are not modelled; the
pipeline never feeds them in). -/
def pyInt (s : List Char) : Option Int :=
  match pyStrip s with
  | [] => none
  | c :: rest =>
      if c = '+' then (digitsToNat rest).map Int.ofNat
      else if c = '-' then (digitsToNat rest).map (fun n => -(Int.ofNat n))
      else (digitsToNat (c :: rest)).map Int.ofNat

/-! ## Calendar dates and pandas timestamps -/

/-- A calendar date, modelling a midnight `pd.Timestamp`. -/
structure Date where
  anio : Int
  mes : Nat
  dia : Nat
deriving DecidableEq

/-- Gregorian leap year. -/
def leapYear (y : Int) : Bool :=
  y % 4 = 0 ∧ (y % 100 ≠ 0 ∨ y % 400 = 0)

/-- Days in a month. -/
def daysInMonth (y : Int) (m : Nat) : Nat :=
  if m = 2 then (if leapYear y then 29 else 28)
  else if m = 4 ∨ m = 6 ∨ m = 9 ∨ m = 11 then 30
  else 31

/-- Lexicographic strict order on dates (Python tuple comparison of
`(year, month, day)`). -/
def dateLt (a b : Date) : Bool :=
  a.anio < b.anio ∨ (a.anio = b.anio ∧ (a.mes < b.mes ∨ (a.mes = b.mes ∧ a.dia < b.dia)))

/-- `a ≤ b` on dates. -/
def dateLe (a b : Date) : Bool :=
  dateLt a b ∨ a = b

/-- The midnight timestamps representable by pandas lie between
`1677-09-22` and `2262-04-11` (`pd.Timestamp.min` is shortly after midnight
of 1677-09-21, `pd.Timestamp.max` late on 2262-04-11). -/
def inPandasBounds (d : Date) : Bool :=
  dateLe ⟨1677, 9, 22⟩ d ∧ dateLe d ⟨2262, 4, 11⟩

/-- A valid in-bounds calendar date: what `pd.Timestamp` construction from a
year/month/day accepts. -/
def validDate (d : Date) : Bool :=
  1 ≤ d.mes ∧ d.mes ≤ 12 ∧ 1 ≤ d.dia ∧ d.dia ≤ daysInMonth d.anio d.mes ∧ inPandasBounds d

/-- `pd.Timestamp(f"{y}-{m:02d}-{d:02d}")`: succeeds exactly on valid
in-bounds dates.  (For `0 ≤ y ≤ 99` the underlying string parser would
re-interpret the year against the current century; that corner is not
modelled and every theorem that touches construction keeps `y ≥ 100`.) -/
def pdTimestampOfParts (y m d : Int) : Option Date :=
  if 100 ≤ y ∧ 1 ≤ m ∧ 1 ≤ d then
    let dt : Date := ⟨y, m.toNat, d.toNat⟩
    if validDate dt then some dt else none
  else none

/-- Days since the epoch 1970-01-01 (civil-from-days arithmetic), used for
`timedelta` day arithmetic in the date-coherence validator. -/
def daysFromCivil (dt : Date) : Int :=
  let y : Int := if dt.mes ≤ 2 then dt.anio - 1 else dt.anio
  let m : Int := dt.mes
  let d : Int := dt.dia
  let era : Int := (if 0 ≤ y then y else y - 399) / 400
  let yoe : Int := y - era * 400
  let doy : Int := (153 * (if 2 < m then m - 3 else m + 9) + 2) / 5 + d - 1
  let doe : Int := yoe * 365 + yoe / 4 - yoe / 100 + doy
  era * 146097 + doe - 719468

/-- `hoy + pd.DateOffset(years=2)`: add two calendar years, clamping the day
to the target month length (Feb 29 → Feb 28). -/
def addTwoYears (d : Date) : Date :=
  ⟨d.anio + 2, d.mes, min d.dia (daysInMonth (d.anio + 2) d.mes)⟩

/-- Zero-pad a natural number to two decimal digits (`f"{n:02d}"`, `n ≥ 0`). -/
def pad2 (n : Nat) : List Char :=
  if n < 10 then '0' :: natChars n else natChars n

/-- `str(pd.Timestamp(...))` for a midnight timestamp:
`"YYYY-MM-DD 00:00:00"`.  Years of in-bounds timestamps always have four
digits, so no year padding is needed. -/
def tsChars (d : Date) : List Char :=
  natChars d.anio.toNat ++ '-' :: (pad2 d.mes ++ '-' :: (pad2 d.dia ++ " 00:00:00".toList))

/-- Strict parse `pd.to_datetime(s, format="%Y-%m-%d", errors="raise")`:
three dash-separated all-digit components (1–4 / 1–2 / 1–2 digits), that
form a valid in-bounds calendar date. -/
def pyStrictParseDate (s : List Char) : Option Date :=
  match splitOnPred (fun c => c = '-') s with
  | [ys, ms, ds] =>
      if ys.all Char.isDigit ∧ 1 ≤ ys.length ∧ ys.length ≤ 4 ∧
         ms.all Char.isDigit ∧ 1 ≤ ms.length ∧ ms.length ≤ 2 ∧
         ds.all Char.isDigit ∧ 1 ≤ ds.length ∧ ds.length ≤ 2 then
        match digitsToNat ys, digitsToNat ms, digitsToNat ds with
        | some y, some m, some d =>
            let dt : Date := ⟨(y : Int), m, d⟩
            if validDate dt then some dt else none
        | _, _, _ => none
      else none
  | _ => none

/-! ## `scripts/02_limpieza.py`: the DateDisambiguator
(`corregir_fecha_inteligente`) -/

/-- A cell of the `fecha_cita` column: pandas `NaT`, a raw string, or a
(midnight) timestamp. -/
inductive DateCell where
  | null
  | str (s : String)
  | ts (d : Date)
deriving DecidableEq

/-- `str(cell)` for a non-null date cell. -/
def dateCellChars : DateCell → List Char
  | .null => []
  | .str s => s.toList
  | .ts d => tsChars d

/-- The separators of the `re.split` in `corregir_fecha_inteligente`:
dash, slash and dot. -/
def dateSep (c : Char) : Bool :=
  c = '-' ∨ c = '/' ∨ c = '.'

/-- The `str(e)` text of the `ValueError` raised by `int(part)`; Python
quotes the offending text, the quotes are omitted here. -/
def intErrMsg (part : List Char) : String :=
  "ERROR: invalid literal for int() with base 10: " ++ String.mk part

/-- `corregir_fecha_inteligente` (02_limpieza.py, `limpiar_citas` step 1):
returns `(fecha_corregida, es_ambigua, motivo)`.

1. null / blank → `(NaT, False, NULO)`;
2. strict `%Y-%m-%d` parse → `(fecha, False, VÁLIDA)`;
3. split on dash, slash or dot; not exactly 3 parts → `(NaT, False, FORMATO_INVALIDO)`;
4. parse the 3 parts with `int(...)` (the first failure aborts with an
   `ERROR: ...` tag), then apply the swap rules, each constructing a
   `pd.Timestamp` and catching its failure. -/
def corregir_fecha_inteligente (cell : DateCell) : DateCell × Bool × String :=
  match cell with
  | .null => (.null, false, "NULO")
  | _ =>
    let s := pyStrip (dateCellChars cell)
    if s.isEmpty then (.null, false, "NULO")
    else
      match pyStrictParseDate s with
      | some d => (.ts d, false, "VÁLIDA")
      | none =>
        match splitOnPred dateSep s with
        | [p0, p1, p2] =>
          match pyInt p0 with
          | none => (.null, false, intErrMsg p0)
          | some anio =>
            match pyInt p1 with
            | none => (.null, false, intErrMsg p1)
            | some comp1 =>
              match pyInt p2 with
              | none => (.null, false, intErrMsg p2)
              | some comp2 =>
                if comp1 > 12 ∧ comp2 ≤ 12 then
                  match pdTimestampOfParts anio comp2 (min comp1 31) with
                  | some f =>
                      (.ts f, false,
                       "CORREGIDO_DDMM(" ++ toString comp1 ++ "→" ++
                         toString (min comp1 31) ++ ")")
                  | none => (.null, false, "ERROR_CORRECCION")
                else if comp1 ≤ 12 ∧ comp2 > 12 then
                  match pdTimestampOfParts anio comp1 (min comp2 31) with
                  | some f => (.ts f, false, "VÁLIDA_MMDD")
                  | none => (.null, false, "ERROR_VALIDACION")
                else if comp1 ≤ 12 ∧ comp2 ≤ 12 then
                  match pdTimestampOfParts anio comp1 (min comp2 31) with
                  | some f =>
                      (.ts f, true,
                       "AMBIGUA_ASUMIDO_MMDD(" ++ toString comp1 ++ "-" ++
                         toString comp2 ++ ")")
                  | none => (.null, false, "AMBIGUA_NO_VALIDA")
                else (.null, false, "COMPONENTES_INVALIDOS")
        | _ => (.null, false, "FORMATO_INVALIDO")

/-! ## `scripts/02_limpieza.py`: patient-field normalisers -/

/-- `limpiar_pacientes` step 1, sex normalisation.  A pandas null feeds
`str(nan) = "nan"` into the lambda, which matches neither list, giving
`np.nan` back; that is the `none ↦ none` case. -/
def normalizarSexo (x : Option String) : Option String :=
  match x with
  | none => none
  | some s =>
      let u := String.mk ((pyStrip s.toList).map chUpper)
      if u = "F" ∨ u = "FEMALE" then some "F"
      else if u = "M" ∨ u = "MALE" then some "M"
      else none

/-- `pd.to_datetime(fecha_str, errors="coerce")` for a birth-date string.
The flexible dateutil grammar is modelled by the `YYYY-MM-DD` form the
dataset uses; the theorems below rely only on this parse being a function
of the string. -/
def parseFlexDate (s : String) : Option Date :=
  pyStrictParseDate (pyStrip s.toList)

/-- Python tuple comparison `(a, b) < (c, d)` on naturals. -/
def pairLt (a b : Nat × Nat) : Bool :=
  a.1 < b.1 ∨ (a.1 = b.1 ∧ a.2 < b.2)

/-- `calcular_edad_desde_fecha` (limpiar_pacientes step 2): age from the
birth date when it parses, decremented when the birthday has not yet come
this year, otherwise the existing age unchanged. -/
def calcular_edad_desde_fecha (hoy : Date) (fechaStr : Option String)
    (edadActual : Option Int) : Option Int :=
  match fechaStr with
  | none => edadActual
  | some fs =>
      match parseFlexDate fs with
      | none => edadActual
      | some fn =>
          let base := hoy.anio - fn.anio
          some (if pairLt (hoy.mes, hoy.dia) (fn.mes, fn.dia) then base - 1 else base)

/-- `limpiar_telefono` (limpiar_pacientes step 3): keep only digits
(`re.sub(r"[^\d]", "", ...)`, ASCII model), then require 7–15 of them. -/
def limpiar_telefono (tel : Option String) : Option String :=
  match tel with
  | none => none
  | some s =>
      let d := s.toList.filter Char.isDigit
      if 7 ≤ d.length ∧ d.length ≤ 15 then some (String.mk d) else none

/-- `[a-zA-Z0-9._%+-]`, the local-part class of the email regex. -/
def emailLocalChar (c : Char) : Bool :=
  c.isAlpha ∨ c.isDigit ∨ c = '.' ∨ c = '_' ∨ c = '%' ∨ c = '+' ∨ c = '-'

/-- `[a-zA-Z0-9.-]`, the domain class of the email regex. -/
def emailDomainChar (c : Char) : Bool :=
  c.isAlpha ∨ c.isDigit ∨ c = '.' ∨ c = '-'

/-- `re.match(r"^[a-zA-Z0-9._%+-]+@[a-zA-Z0-9.-]+\.[a-zA-Z]{2,}$", s)`:
exactly one `@` (both classes exclude it); a nonempty local part; after the
`@`, a nonempty domain in its class, a final dot, and an all-letter TLD of
length ≥ 2 (the TLD class excludes `.`, so the dot before it is the last
one).  `$` would also accept one trailing newline, but the input here is
always pre-stripped, so that variant cannot fire and is not modelled. -/
def emailMatch (l : List Char) : Bool :=
  match splitOnPred (fun c => c = '@') l with
  | [loc, rest] =>
      (¬loc.isEmpty) ∧ loc.all emailLocalChar ∧ ('.' ∈ rest) ∧
      (let tld := (rest.reverse.takeWhile (fun c => c ≠ '.')).reverse
       let dom := rest.take (rest.length - tld.length - 1)
       (¬dom.isEmpty) ∧ dom.all emailDomainChar ∧ 2 ≤ tld.length ∧
         tld.all Char.isAlpha)
  | _ => false

/-- `validar_email` (limpiar_pacientes step 4): strip, lowercase, keep only
if it matches the email regex. -/
def validar_email (email : Option String) : Option String :=
  match email with
  | none => none
  | some s =>
      let e := (pyStrip s.toList).map chLower
      if emailMatch e then some (String.mk e) else none

/-- Python `str.capitalize()`: first character upper-cased, the rest
lower-cased (ASCII model). -/
def pyCapitalize : List Char → List Char
  | [] => []
  | c :: rest => chUpper c :: rest.map chLower

/-- `" ".join(words)`: the words separated by single spaces. -/
def joinWords : List (List Char) → List Char
  | [] => []
  | [t] => t
  | t :: ts => t ++ ' ' :: joinWords ts

/-- `normalizar_nombre` (limpiar_pacientes step 5):
`" ".join(word.capitalize() for word in str(nombre).split())`. -/
def normalizar_nombre (nombre : Option String) : Option String :=
  match nombre with
  | none => none
  | some s =>
      some (String.mk (joinWords ((pySplitWs s.toList).map pyCapitalize)))

/-- A row of the patients table.  `score_calidad` is the derived quality
column (absent on raw input, written by the cleaner). -/
structure PacienteRow where
  id_paciente : Option Int
  nombre : Option String
  fecha_nacimiento : Option String
  edad : Option Int
  sexo : Option String
  telefono : Option String
  email : Option String
  ciudad : Option String
  score_calidad : Option Int
deriving DecidableEq

/-- `calcular_score_calidad` (limpiar_pacientes step 6): +20 per non-null
among name, age, sex, phone, email. -/
def calcular_score_calidad (r : PacienteRow) : Int :=
  (if r.nombre.isSome then 20 else 0) + (if r.edad.isSome then 20 else 0) +
  (if r.sexo.isSome then 20 else 0) + (if r.telefono.isSome then 20 else 0) +
  (if r.email.isSome then 20 else 0)

/-- One row through `limpiar_pacientes`: the five column passes in source
order (sex, age, phone, email, name), then the quality score computed from
the updated row. -/
def limpiarPacienteRow (hoy : Date) (r : PacienteRow) : PacienteRow :=
  let r1 := { r with sexo := normalizarSexo r.sexo }
  let r2 := { r1 with edad := calcular_edad_desde_fecha hoy r1.fecha_nacimiento r1.edad }
  let r3 := { r2 with telefono := limpiar_telefono r2.telefono }
  let r4 := { r3 with email := validar_email r3.email }
  let r5 := { r4 with nombre := normalizar_nombre r4.nombre }
  { r5 with score_calidad := some (calcular_score_calidad r5) }

/-- `limpiar_pacientes`: the row pass over the whole table (each step is a
column-wise `apply`; no step reads another row, so the table pass is the
row map). -/
def limpiarPacientes (hoy : Date) (dfPacientes : List PacienteRow) : List PacienteRow :=
  dfPacientes.map (limpiarPacienteRow hoy)

/-! ## `scripts/02_limpieza.py`: the appointments pass (`limpiar_citas`) -/

/-- A row of the appointments table.  The derived columns
(`fecha_cita_original`, `fecha_ambigua`, `motivo_correccion`,
`paciente_valido`, `anio_mes`) are written by `limpiar_citas`; whatever a
raw row carries there is overwritten before being read. -/
structure CitaRow where
  id_cita : Option Int
  id_paciente : Option Int
  fecha_cita : DateCell
  especialidad : Option String
  medico : Option String
  costo : Option Rat
  estado_cita : Option String
  fecha_cita_original : DateCell
  fecha_ambigua : Bool
  motivo_correccion : String
  paciente_valido : Bool
  anio_mes : Option (Int × Nat)
deriving DecidableEq

/-- `limpiar_citas` step 1 on one row: keep the original date string, store
the corrected date, the ambiguity flag and the reason. -/
def corregirFilaFecha (r : CitaRow) : CitaRow :=
  let res := corregir_fecha_inteligente r.fecha_cita
  { r with fecha_cita_original := r.fecha_cita, fecha_cita := res.1,
           fecha_ambigua := res.2.1, motivo_correccion := res.2.2 }

/-- `limpiar_citas` step 2:
`x if pd.isnull(x) or x <= max_futuro else np.nan` with
`max_futuro = hoy + DateOffset(years=2)`.  A midnight timestamp is `≤` the
offset instant iff its date is lexicographically `≤` the offset date.  A
raw string would make the comparison raise; the column holds only
timestamps and `NaT` after step 1, so that branch is unreachable and kept
as the identity. -/
def aplicarMaxFuturo (hoy : Date) (c : DateCell) : DateCell :=
  match c with
  | .ts d => if dateLe d (addTwoYears hoy) then .ts d else .null
  | c => c

/-- The non-null costs observed for one specialty
(`groupby('especialidad')['costo']`, which skips nulls). -/
def observedCosts (rows : List CitaRow) (e : String) : List Rat :=
  rows.filterMap (fun r => if r.especialidad = some e then r.costo else none)

/-- The index of `costo_promedio`: the specialties that occur (non-null) in
the table — `groupby` drops null keys. -/
def grupoKeys (rows : List CitaRow) : List String :=
  (rows.filterMap (fun r => r.especialidad)).dedup

/-- Insertion into a sorted list of rationals. -/
def insertSorted (q : Rat) : List Rat → List Rat
  | [] => [q]
  | x :: xs => if q ≤ x then q :: x :: xs else x :: insertSorted q xs

/-- Insertion sort on rationals. -/
def sortRats (l : List Rat) : List Rat :=
  l.foldr insertSorted []

/-- The pandas median of a list of (non-null) values: middle element of the
sorted list, or the mean of the two middle elements; `NaN` (here `none`)
for an empty list — a group whose costs are all null gets a null median. -/
def medianQ (l : List Rat) : Option Rat :=
  match l with
  | [] => none
  | _ =>
      let s := sortRats l
      let n := s.length
      if n % 2 = 1 then some (s.getD (n / 2) 0)
      else some ((s.getD (n / 2 - 1) 0 + s.getD (n / 2) 0) / 2)

/-- `completar_costo` (limpiar_citas step 3): a null cost with a non-null
specialty that appears in the group index is replaced by that group's
median; otherwise the cost is returned unchanged. -/
def completar_costo (keys : List String) (med : String → Option Rat)
    (r : CitaRow) : CitaRow :=
  match r.costo, r.especialidad with
  | none, some e => if e ∈ keys then { r with costo := med e } else r
  | _, _ => r

/-- `determinar_estado` (limpiar_citas step 4): a non-null status is kept;
a null status becomes `No Programada` (null date), `Completada`
(`fecha_cita < hoy`, i.e. the date is on or before today's date, the
processing instant being past midnight) or `Programada`.  A raw string in
the date column would make `<` raise; unreachable after step 1. -/
def determinar_estado (hoy : Date) (r : CitaRow) : String :=
  match r.estado_cita with
  | some s => s
  | none =>
      match r.fecha_cita with
      | .null => "No Programada"
      | .ts d => if dateLe d hoy then "Completada" else "Programada"
      | .str _ => "Programada"

/-- Step 4 written back into the row. -/
def determinarEstadoFila (hoy : Date) (r : CitaRow) : CitaRow :=
  { r with estado_cita := some (determinar_estado hoy r) }

/-- `limpiar_citas` step 5: membership of the row's patient reference in
the cleaned patients' identifier set (`set(...unique())`; dedup does not
change membership, and pandas `isin` also matches a null against a null in
the set, which the `Option Int` equality reproduces). -/
def pacienteValidoFila (ids : List (Option Int)) (r : CitaRow) : CitaRow :=
  { r with paciente_valido := decide (r.id_paciente ∈ ids) }

/-- `limpiar_citas` step 6: `fecha_cita.dt.to_period('M')` — the (year,
month) key of the resolved date, null for `NaT`. -/
def anioMesFila (r : CitaRow) : CitaRow :=
  { r with anio_mes := match r.fecha_cita with
                       | .ts d => some (d.anio, d.mes)
                       | _ => none }

/-- Step 2 written back into the row. -/
def maxFuturoFila (hoy : Date) (r : CitaRow) : CitaRow :=
  { r with fecha_cita := aplicarMaxFuturo hoy r.fecha_cita }

/-- `limpiar_citas`: the six steps in source order.  The per-specialty
medians are computed after the date steps (from `paso2`), exactly where the
source computes `costo_promedio`. -/
def limpiarCitas (hoy : Date) (pacs : List PacienteRow) (citas : List CitaRow) :
    List CitaRow :=
  let paso1 := citas.map corregirFilaFecha
  let paso2 := paso1.map (maxFuturoFila hoy)
  let keys := grupoKeys paso2
  let med := fun e => medianQ (observedCosts paso2 e)
  let paso3 := paso2.map (completar_costo keys med)
  let paso4 := paso3.map (determinarEstadoFila hoy)
  let ids := pacs.map (fun p => p.id_paciente)
  let paso5 := paso4.map (pacienteValidoFila ids)
  paso5.map anioMesFila

/-- The data flow of `DataCleaner.ejecutar_pipeline` on the two in-memory
tables: clean patients, then clean appointments against the cleaned
patients.  (Metric computation only reads the tables and the export step is
file I/O; neither changes a table.) -/
def ejecutarPipeline (hoy : Date) (dfs : List PacienteRow × List CitaRow) :
    List PacienteRow × List CitaRow :=
  let pacientesLimpios := limpiarPacientes hoy dfs.1
  let citasLimpias := limpiarCitas hoy pacientesLimpios dfs.2
  (pacientesLimpios, citasLimpias)

/-! ## Aliasing model for `DataCleaner.__init__` (claim C10)

Python passes DataFrames by reference; `__init__` copies both.  The heap
maps references (allocation indices) to table contents, one reference space
per table kind. -/

/-- The mutable store: allocation counters and contents per reference. -/
structure Heap where
  nextP : Nat
  memP : Nat → List PacienteRow
  nextC : Nat
  memC : Nat → List CitaRow

/-- Overwrite the patients table at reference `r` (in-place mutation of the
object `r` points to). -/
def escribirP (h : Heap) (r : Nat) (v : List PacienteRow) : Heap :=
  { h with memP := fun i => if i = r then v else h.memP i }

/-- Overwrite the appointments table at reference `r`. -/
def escribirC (h : Heap) (r : Nat) (v : List CitaRow) : Heap :=
  { h with memC := fun i => if i = r then v else h.memC i }

/-- The `DataCleaner` object: references to its two private tables. -/
structure DataCleaner where
  dfPacientesRef : Nat
  dfCitasRef : Nat

/-- `DataCleaner.__init__(df_pacientes, df_citas)`: the caller passes
references `rP`, `rC`; `.copy()` allocates fresh references holding copies
of the referenced contents. -/
def DataCleaner.crear (h : Heap) (rP rC : Nat) : DataCleaner × Heap :=
  (⟨h.nextP, h.nextC⟩,
   { nextP := h.nextP + 1,
     memP := fun i => if i = h.nextP then h.memP rP else h.memP i,
     nextC := h.nextC + 1,
     memC := fun i => if i = h.nextC then h.memC rC else h.memC i })

/-- `ejecutar_pipeline` against the heap: `limpiar_pacientes` and
`limpiar_citas` mutate the cleaner's own tables in place (all other stages
only read). -/
def DataCleaner.ejecutarPipelineHeap (hoy : Date) (c : DataCleaner) (h : Heap) : Heap :=
  let h1 := escribirP h c.dfPacientesRef (limpiarPacientes hoy (h.memP c.dfPacientesRef))
  escribirC h1 c.dfCitasRef
    (limpiarCitas hoy (h1.memP c.dfPacientesRef) (h1.memC c.dfCitasRef))

/-! ## Generic tables for the validator layer

The validators take a DataFrame and column names; a table is a row count
plus named columns of cells. -/

/-- A pandas cell as the validators see it. -/
inductive Value where
  | null
  | str (s : String)
  | int (n : Int)
  | rat (q : Rat)
  | boolV (b : Bool)
  | ts (d : Date)
deriving DecidableEq

/-- `pd.isna` on a cell. -/
def Value.isna : Value → Bool
  | .null => true
  | _ => false

/-- A DataFrame: row count and named columns. -/
structure DataFrame where
  nrows : Nat
  cols : List (String × List Value)

/-- Column lookup (`df[c]`, or `c in df.columns` when testing `isSome`). -/
def DataFrame.find? (df : DataFrame) (c : String) : Option (List Value) :=
  (df.cols.find? (fun p => p.1 = c)).map (fun p => p.2)

/-- `c in df.columns`. -/
def DataFrame.hasCol (df : DataFrame) (c : String) : Bool :=
  (df.find? c).isSome

/-! ## `validators/integrity_validator.py` -/

/-- Result dict of `validate_foreign_keys`. -/
structure FKResult where
  passed : Bool
  message : String
  invalid_references : Nat
  invalid_ids : List Value
deriving DecidableEq

/-- `IntegrityValidator.validate_foreign_keys`: every non-null child value
must occur among the parent values; a missing column on either side is a
failure result, not an exception. -/
def validate_foreign_keys (childDf : DataFrame) (childColumn : String)
    (parentDf : DataFrame) (parentColumn : String) : FKResult :=
  match childDf.find? childColumn with
  | none =>
      { passed := false,
        message := "Columna " ++ childColumn ++ " no encontrada en DataFrame hijo",
        invalid_references := 0, invalid_ids := [] }
  | some childCol =>
      match parentDf.find? parentColumn with
      | none =>
          { passed := false,
            message := "Columna " ++ parentColumn ++ " no encontrada en DataFrame padre",
            invalid_references := 0, invalid_ids := [] }
      | some parentCol =>
          let childValues := (childCol.filter (fun v => ¬v.isna)).dedup
          let parentValues := (parentCol.filter (fun v => ¬v.isna)).dedup
          let invalid := childValues.filter (fun v => v ∉ parentValues)
          let n := invalid.length
          { passed := n = 0,
            message := if n > 0 then toString n ++ " referencias inválidas encontradas"
                       else "Todas las referencias son válidas",
            invalid_references := n, invalid_ids := invalid }

/-- `pd.to_datetime(col, errors="coerce")` on one cell.  Strings go through
the flexible parser, modelled by the `YYYY-MM-DD` form (the only string
form the pipeline feeds it); numbers would be epoch offsets, a corner that
no proof here exercises, modelled as `NaT`. -/
def toDatetimeCoerce : Value → Option Date
  | .ts d => some d
  | .str s => pyStrictParseDate (pyStrip s.toList)
  | _ => none

/-- Result dict of `validate_date_coherence`; the last two keys exist only
in the full-check branch. -/
structure DateCohResult where
  passed : Bool
  message : String
  future_dates : Nat
  invalid_dates : Nat
  problematic_dates : Option (List Value)
  total_records : Option Nat
deriving DecidableEq

/-- `IntegrityValidator.validate_date_coherence`: count dates beyond
`today + max_future_days` and unparseable dates; pass iff both counts are
zero. -/
def validate_date_coherence (hoy : Date) (df : DataFrame) (dateColumn : String)
    (maxFutureDays : Nat) : DateCohResult :=
  match df.find? dateColumn with
  | none =>
      { passed := false, message := "Columna " ++ dateColumn ++ " no encontrada",
        future_dates := 0, invalid_dates := 0,
        problematic_dates := none, total_records := none }
  | some col =>
      let series := col.map toDatetimeCoerce
      let isFuture := fun (o : Option Date) =>
        match o with
        | some d => decide (daysFromCivil d > daysFromCivil hoy + (maxFutureDays : Int))
        | none => false
      let futureCount := (series.filter isFuture).length
      let invalidCount := (series.filter (fun o => o.isNone)).length
      let problematic :=
        if futureCount > 0 then
          (col.filter (fun v => isFuture (toDatetimeCoerce v)))
        else []
      { passed := futureCount = 0 ∧ invalidCount = 0,
        message := toString futureCount ++ " fechas futuras extremas, " ++
                   toString invalidCount ++ " fechas inválidas",
        future_dates := futureCount, invalid_dates := invalidCount,
        problematic_dates := some problematic, total_records := some df.nrows }

/-- Result dict of `validate_column_values`; `valid_values_count` exists
only in the full-check branch. -/
structure ColValsResult where
  passed : Bool
  message : String
  invalid_count : Nat
  invalid_values : List Value
  valid_values_count : Option Int
deriving DecidableEq

/-- A cell is in an allowed list of strings (`Series.isin`): only a string
cell equal to a member qualifies; nulls are not in any list. -/
def Value.isinStrs (v : Value) (vals : List String) : Bool :=
  match v with
  | .str s => s ∈ vals
  | _ => false

/-- `IntegrityValidator.validate_column_values`: a cell is invalid when it
is not in the allowed list or is null (`~isin | isna`); pass iff no
invalid cell. -/
def validate_column_values (df : DataFrame) (column : String)
    (validValues : List String) : ColValsResult :=
  match df.find? column with
  | none =>
      { passed := false, message := "Columna " ++ column ++ " no encontrada",
        invalid_count := 0, invalid_values := [], valid_values_count := none }
  | some col =>
      let invalidMask := fun v => ¬Value.isinStrs v validValues ∨ Value.isna v
      let invalid := col.filter invalidMask
      let n := invalid.length
      { passed := n = 0,
        message := toString n ++ " valores inválidos en columna " ++ column,
        invalid_count := n,
        invalid_values := if n > 0 then invalid.dedup else [],
        valid_values_count := some ((df.nrows : Int) - n) }

/-- `pd.to_numeric(col, errors="coerce")` on one cell (booleans coerce to
0/1, numeric strings through `int` — float strings and timestamps are
corners no theorem exercises, modelled as `NaN`). -/
def toNumericCoerce : Value → Option Rat
  | .int n => some (n : Rat)
  | .rat q => some q
  | .boolV b => some (if b then 1 else 0)
  | .str s => (pyInt s.toList).map (fun n => (n : Rat))
  | _ => none

/-- Result dict of `validate_numeric_range` (the echoed `min_val` /
`max_val` keys carry no behaviour and are omitted). -/
structure RangeResult where
  passed : Bool
  message : String
  out_of_range : Nat
deriving DecidableEq

/-- `IntegrityValidator.validate_numeric_range`: count numeric cells below
`min_val` or above `max_val` (comparisons against `NaN` are false, so
non-numeric cells never count); pass iff none. -/
def validate_numeric_range (df : DataFrame) (column : String)
    (minVal maxVal : Option Rat) : RangeResult :=
  match df.find? column with
  | none =>
      { passed := false, message := "Columna " ++ column ++ " no encontrada",
        out_of_range := 0 }
  | some col =>
      let outOfRange := fun v =>
        match toNumericCoerce v with
        | none => false
        | some q =>
            (match minVal with | some mn => decide (q < mn) | none => false) ||
            (match maxVal with | some mx => decide (q > mx) | none => false)
      let n := (col.filter outOfRange).length
      { passed := n = 0,
        message := toString n ++ " valores fuera de rango en " ++ column,
        out_of_range := n }

/-- One sub-result of the duplicate-identifier check. -/
structure UniqIdResult where
  passed : Bool
  duplicates : Nat
  message : String
deriving DecidableEq

/-- `df.duplicated(subset=[c]).sum()` on a column: rows minus distinct
values (pandas treats equal nulls as duplicates of each other, as `dedup`
does). -/
def mkUniqIdResult (col : List Value) (labelDup : String) : UniqIdResult :=
  let dups := col.length - col.dedup.length
  { passed := dups = 0,
    duplicates := dups,
    message := if dups > 0 then toString dups ++ " " ++ labelDup else "IDs únicos" }

/-- The allowed appointment states (`estados_validos`). -/
def estadosValidos : List String :=
  ["Programada", "Completada", "Cancelada", "Reprogramada", "No Programada"]

/-- The allowed specialties (`especialidades_validas`). -/
def especialidadesValidas : List String :=
  ["Cardiología", "Neurología", "Pediatría", "Ginecología", "Ortopedia"]

/-- The aggregate report of `validate_all_integrity`.  The age-range and
uniqueness entries exist only when their column does; the summary counters
count each performed test once. -/
structure IntegrityReport where
  overall_passed : Bool
  referencial_pacientes : FKResult
  coherencia_fechas : DateCohResult
  estados_cita : ColValsResult
  especialidades : ColValsResult
  rango_edad : Option RangeResult
  unicidad_pacientes : Option UniqIdResult
  unicidad_citas : Option UniqIdResult
  total_tests : Nat
  passed_tests : Nat
  failed_tests : Nat
deriving DecidableEq

/-- `IntegrityValidator.validate_all_integrity`: runs the six checks in
source order.  `overall_passed` starts `True` and is set to `False` by a
failing referential check (1) or date-coherence check (2); the remaining
checks (3–6) only update the summary counters.  The counters are the
counts over the list of performed-test outcomes, which matches the
increment-per-test accounting of the source. -/
def validate_all_integrity (hoy : Date) (pacientesDf citasDf : DataFrame) :
    IntegrityReport :=
  let refR := validate_foreign_keys citasDf "id_paciente" pacientesDf "id_paciente"
  let overall1 := if refR.passed then true else false
  let fechaR := validate_date_coherence hoy citasDf "fecha_cita" 730
  let overall2 := if fechaR.passed then overall1 else false
  let estadoR := validate_column_values citasDf "estado_cita" estadosValidos
  let especR := validate_column_values citasDf "especialidad" especialidadesValidas
  let edadR := if pacientesDf.hasCol "edad" then
                 some (validate_numeric_range pacientesDf "edad" (some 0) (some 120))
               else none
  let uniqP := (pacientesDf.find? "id_paciente").map
                 (fun col => mkUniqIdResult col "IDs de pacientes duplicados")
  let uniqC := (citasDf.find? "id_cita").map
                 (fun col => mkUniqIdResult col "IDs de citas duplicados")
  let outcomes : List Bool :=
    [refR.passed, fechaR.passed, estadoR.passed, especR.passed] ++
    (edadR.map (fun r => r.passed)).toList ++
    (uniqP.map (fun r => r.passed)).toList ++
    (uniqC.map (fun r => r.passed)).toList
  { overall_passed := overall2,
    referencial_pacientes := refR,
    coherencia_fechas := fechaR,
    estados_cita := estadoR,
    especialidades := especR,
    rango_edad := edadR,
    unicidad_pacientes := uniqP,
    unicidad_citas := uniqC,
    total_tests := outcomes.length,
    passed_tests := (outcomes.filter (fun b => b)).length,
    failed_tests := (outcomes.filter (fun b => !b)).length }

/-! ## `validators/data_validator.py` (`DataValidator` check methods)

Each method reads `self.df`; here the table is passed explicitly.
`validate_not_null` and `validate_unique` index `self.df[column]` without a
guard, so a missing column raises `KeyError` — their embedding returns
`Except.error`.  The other four checks guard with `column not in
self.df.columns` and return a failure dict. -/

/-- Result dict of `validate_not_null`. -/
structure NotNullResult where
  column : String
  threshold : Rat
  null_count : Nat
  null_percentage : Rat
  total_rows : Nat
  passed : Bool
  message : String
deriving DecidableEq

/-- `DataValidator.validate_not_null`: passes when the null fraction is at
most `1 - threshold`.  (`self.df[column]` is unguarded: a missing column is
a `KeyError`.)  The display rounding of the stored percentage and the
percent formatting of the message are omitted. -/
def validate_not_null (df : DataFrame) (column : String) (threshold : Rat) :
    Except String NotNullResult :=
  match df.find? column with
  | none => .error ("KeyError: " ++ column)
  | some col =>
      let total := df.nrows
      let nullCount := (col.filter Value.isna).length
      let nullPercentage : Rat := if total > 0 then (nullCount : Rat) / (total : Rat) else 0
      .ok { column := column, threshold := threshold,
            null_count := nullCount, null_percentage := nullPercentage,
            total_rows := total,
            passed := decide (nullPercentage ≤ 1 - threshold),
            message := toString nullCount ++ "/" ++ toString total ++ " valores nulos" }

/-- Result dict of `validate_unique`. -/
structure UniqueResult where
  column : String
  total_rows : Nat
  unique_count : Nat
  duplicate_count : Int
  passed : Bool
  message : String
deriving DecidableEq

/-- `DataValidator.validate_unique`: duplicates are `len(df) − nunique()`
(`nunique` counts distinct non-null values).  Unguarded column access. -/
def validate_unique (df : DataFrame) (column : String) :
    Except String UniqueResult :=
  match df.find? column with
  | none => .error ("KeyError: " ++ column)
  | some col =>
      let total := df.nrows
      let uniqueCount := ((col.filter (fun v => ¬v.isna)).dedup).length
      let duplicateCount : Int := (total : Int) - uniqueCount
      .ok { column := column, total_rows := total, unique_count := uniqueCount,
            duplicate_count := duplicateCount,
            passed := duplicateCount = 0,
            message := toString duplicateCount ++ " duplicados encontrados" }

/-- Result dict of `validate_format` (the keys of the failure and
empty-column branches are a subset of the full ones; absent counters are
zero here). -/
structure FormatResult where
  column : String
  total_checked : Nat
  invalid_count : Nat
  passed : Bool
  message : String
  invalid_examples : List Value
deriving DecidableEq

/-- `str(value)` for the `astype(str)` coercion before a regex match. -/
def Value.asStr : Value → String
  | .null => "nan"
  | .str s => s
  | .int n => toString n
  | .rat q => toString q
  | .boolV b => if b then "True" else "False"
  | .ts d => String.mk (tsChars d)

/-- `DataValidator.validate_format`: a missing column is a `passed=False`
result; an all-null column trivially passes; otherwise every non-null
value, stringified, must match the pattern (the compiled regex is the
function `pattern`); up to 5 invalid examples are kept. -/
def validate_format (df : DataFrame) (column : String)
    (pattern : String → Bool) : FormatResult :=
  match df.find? column with
  | none =>
      { column := column, total_checked := 0, invalid_count := 0,
        passed := false, message := "Columna " ++ column ++ " no existe",
        invalid_examples := [] }
  | some col =>
      let nonNull := col.filter (fun v => ¬v.isna)
      if nonNull.isEmpty then
        { column := column, total_checked := 0, invalid_count := 0,
          passed := true, message := "Sin valores para validar",
          invalid_examples := [] }
      else
        let invalid := nonNull.filter (fun v => ¬pattern v.asStr)
        let n := invalid.length
        { column := column, total_checked := nonNull.length, invalid_count := n,
          passed := n = 0,
          message := toString n ++ "/" ++ toString nonNull.length ++
                     " valores con formato incorrecto",
          invalid_examples := if n > 0 then invalid.take 5 else [] }

/-- Result dict of `validate_range` (DataValidator). -/
structure DvRangeResult where
  column : String
  total_checked : Nat
  out_of_range_count : Nat
  passed : Bool
  message : String
  out_of_range_examples : List Value
deriving DecidableEq

/-- `DataValidator.validate_range`: missing column → `passed=False`
result; empty non-null column passes; otherwise every non-null value must
satisfy the optional bounds.  (The source compares cells directly; numeric
cells are compared numerically here, and a mixed-type column, which would
raise in pandas, is not exercised by any theorem.) -/
def DataValidator.validate_range (df : DataFrame) (column : String)
    (minVal maxVal : Option Rat) : DvRangeResult :=
  match df.find? column with
  | none =>
      { column := column, total_checked := 0, out_of_range_count := 0,
        passed := false, message := "Columna " ++ column ++ " no existe",
        out_of_range_examples := [] }
  | some col =>
      let nonNull := col.filter (fun v => ¬v.isna)
      if nonNull.isEmpty then
        { column := column, total_checked := 0, out_of_range_count := 0,
          passed := true, message := "Sin valores para validar",
          out_of_range_examples := [] }
      else
        let inRange := fun v =>
          match toNumericCoerce v with
          | some q =>
              (match minVal with | some mn => decide (mn ≤ q) | none => true) &&
              (match maxVal with | some mx => decide (q ≤ mx) | none => true)
          | none => true
        let outOfRange := nonNull.filter (fun v => !inRange v)
        let n := outOfRange.length
        { column := column, total_checked := nonNull.length,
          out_of_range_count := n, passed := n = 0,
          message := toString n ++ "/" ++ toString nonNull.length ++
                     " valores fuera de rango",
          out_of_range_examples := if n > 0 then outOfRange.take 5 else [] }

/-- Result dict of `validate_value_set`. -/
structure ValueSetResult where
  column : String
  total_checked : Nat
  invalid_count : Nat
  passed : Bool
  message : String
  invalid_examples : List Value
  unique_invalid_values : List Value
deriving DecidableEq

/-- `DataValidator.validate_value_set`: missing column → `passed=False`
result; empty non-null column passes; otherwise every non-null value must
be a member of the allowed list. -/
def validate_value_set (df : DataFrame) (column : String)
    (allowedValues : List Value) : ValueSetResult :=
  match df.find? column with
  | none =>
      { column := column, total_checked := 0, invalid_count := 0,
        passed := false, message := "Columna " ++ column ++ " no existe",
        invalid_examples := [], unique_invalid_values := [] }
  | some col =>
      let nonNull := col.filter (fun v => ¬v.isna)
      if nonNull.isEmpty then
        { column := column, total_checked := 0, invalid_count := 0,
          passed := true, message := "Sin valores para validar",
          invalid_examples := [], unique_invalid_values := [] }
      else
        let invalid := nonNull.filter (fun v => v ∉ allowedValues)
        let n := invalid.length
        { column := column, total_checked := nonNull.length, invalid_count := n,
          passed := n = 0,
          message := toString n ++ "/" ++ toString nonNull.length ++
                     " valores no permitidos",
          invalid_examples := if n > 0 then invalid.take 5 else [],
          unique_invalid_values := if n > 0 then invalid.dedup else [] }

/-- Result dict of `validate_consistency`. -/
structure ConsistencyResult where
  columns : List String
  total_checked : Nat
  inconsistent_count : Nat
  passed : Bool
  message : String
deriving DecidableEq

/-- `DataValidator.validate_consistency`: both columns must exist (else a
`passed=False` result); the predicate is evaluated on the rows where both
cells are non-null. -/
def validate_consistency (df : DataFrame) (column1 column2 : String)
    (ruleFunc : Value → Value → Bool) : ConsistencyResult :=
  match df.find? column1, df.find? column2 with
  | some col1, some col2 =>
      let pairs := (col1.zip col2).filter (fun p => ¬p.1.isna ∧ ¬p.2.isna)
      if pairs.isEmpty then
        { columns := [column1, column2], total_checked := 0,
          inconsistent_count := 0, passed := true,
          message := "Sin filas para validar consistencia" }
      else
        let inconsistent := pairs.filter (fun p => ¬ruleFunc p.1 p.2)
        let n := inconsistent.length
        { columns := [column1, column2], total_checked := pairs.length,
          inconsistent_count := n, passed := n = 0,
          message := toString n ++ "/" ++ toString pairs.length ++
                     " filas inconsistentes" }
  | _, _ =>
      { columns := [column1, column2], total_checked := 0,
        inconsistent_count := 0, passed := false,
        message := "Columnas no existen: " ++ column1 ++ ", " ++ column2 }

/-! ## Claim theorems -/

/-- A fixed processing date used by concrete witnesses and counterexamples. -/
def fechaHoy : Date := ⟨2026, 10, 12⟩

/-- An appointment row with every nullable field null and the derived
columns at their pre-cleaning placeholders. -/
def citaVacia : CitaRow :=
  { id_cita := none, id_paciente := none, fecha_cita := .null,
    especialidad := none, medico := none, costo := none, estado_cita := none,
    fecha_cita_original := .null, fecha_ambigua := false,
    motivo_correccion := "", paciente_valido := false, anio_mes := none }

/-- A patients table whose only row has age 130 (out of [0,120]). -/
def pacientesEdadInvalida : DataFrame :=
  ⟨1, [("id_paciente", [.int 1]), ("edad", [.int 130])]⟩

/-- A patients table with a duplicated identifier. -/
def pacientesIdDuplicado : DataFrame :=
  ⟨2, [("id_paciente", [.int 1, .int 1]), ("edad", [.int 40, .int 50])]⟩

/-- An appointments table passing the referential and date-coherence
checks against either patients table above. -/
def citasCoherentes : DataFrame :=
  ⟨1, [("id_cita", [.int 1]), ("id_paciente", [.int 1]),
       ("fecha_cita", [.ts ⟨2026, 5, 1⟩]), ("estado_cita", [.str "Completada"]),
       ("especialidad", [.str "Cardiología"])]⟩

/-- A one-column table of appointment states containing a null among
otherwise valid states. -/
def citasConEstadoNulo : DataFrame :=
  ⟨3, [("estado_cita", [.str "Completada", .null, .str "Programada"])]⟩

/-- A `Cardiología` appointment row with the given id and cost. -/
def citaCardio (i : Int) (q : Option Rat) : CitaRow :=
  { citaVacia with id_cita := some i, especialidad := some "Cardiología", costo := q }

/-- Three `Cardiología` appointments with observed costs 100, 200, null. -/
def citasCardiologia : List CitaRow :=
  [citaCardio 1 (some 100), citaCardio 2 (some 200), citaCardio 3 none]

/-- A heap with one (empty) table allocated in each reference space. -/
def heapVacia : Heap := ⟨1, fun _ => [], 1, fun _ => []⟩

/-- A complete, already-clean patient. -/
def pacientesEjemplo : List PacienteRow :=
  [{ id_paciente := some 1, nombre := some "Ana Mora", fecha_nacimiento := some "1990-11-03",
     edad := some 30, sexo := some "F", telefono := some "5551234567",
     email := some "ana@mail.com", ciudad := some "Cali", score_calidad := none }]

/-- One appointment with a valid raw date string. -/
def citasEjemplo : List CitaRow :=
  [{ id_cita := some 1, id_paciente := some 1, fecha_cita := .str "2024-05-13",
     especialidad := some "Cardiología", medico := some "Dr. Ruiz", costo := some 100,
     estado_cita := some "Completada", fecha_cita_original := .null, fecha_ambigua := false,
     motivo_correccion := "", paciente_valido := false, anio_mes := none }]

/-- An appointment row whose date is an already-resolved timestamp. -/
def citaConFechaResuelta : CitaRow :=
  { citaVacia with fecha_cita := .ts ⟨2024, 5, 13⟩ }

/-! ## Proofs -/

theorem chLower_eq_or_mem (c : Char) : chLower c = c ∨ (c, chLower c) ∈ lowerTable := by
  unfold chLower
  cases h : lowerTable.find? (fun p => p.1 = c) with
  | none => left; rfl
  | some pr =>
      right
      have hm : pr ∈ lowerTable := List.mem_of_find?_eq_some h
      have hc : pr.1 = c := by simpa using List.find?_some h
      simpa [← hc] using hm

theorem chUpper_eq_or_mem (c : Char) : chUpper c = c ∨ (c, chUpper c) ∈ upperTable := by
  unfold chUpper
  cases h : upperTable.find? (fun p => p.1 = c) with
  | none => left; rfl
  | some pr =>
      right
      have hm : pr ∈ upperTable := List.mem_of_find?_eq_some h
      have hc : pr.1 = c := by simpa using List.find?_some h
      simpa [← hc] using hm

theorem chLower_idem (c : Char) : chLower (chLower c) = chLower c := by
  rcases chLower_eq_or_mem c with h | h
  · rw [h, h]
  · have hc : c ∈ lowerTable.map Prod.fst := List.mem_map_of_mem Prod.fst h
    fin_cases hc <;> decide

theorem chUpper_idem (c : Char) : chUpper (chUpper c) = chUpper c := by
  rcases chUpper_eq_or_mem c with h | h
  · rw [h, h]
  · have hc : c ∈ upperTable.map Prod.fst := List.mem_map_of_mem Prod.fst h
    fin_cases hc <;> decide

theorem pyIsSpace_chLower (c : Char) : pyIsSpace (chLower c) = pyIsSpace c := by
  rcases chLower_eq_or_mem c with h | h
  · rw [h]
  · have hc : c ∈ lowerTable.map Prod.fst := List.mem_map_of_mem Prod.fst h
    fin_cases hc <;> decide

theorem pyIsSpace_chUpper (c : Char) : pyIsSpace (chUpper c) = pyIsSpace c := by
  rcases chUpper_eq_or_mem c with h | h
  · rw [h]
  · have hc : c ∈ upperTable.map Prod.fst := List.mem_map_of_mem Prod.fst h
    fin_cases hc <;> decide

/-- C2 (counterexample): `resolve("not-a-date")` does *not* return the tag
`FORMATO_INVALIDO`: the split on dash yields exactly the 3 components
`["not", "a", "date"]`, so the length guard passes and the failure happens
at `int("not")`, whose `ValueError` is caught by the outer handler and
tagged `ERROR: ...`. -/
theorem c2_counterexample :
    corregir_fecha_inteligente (.str "not-a-date") =
      (DateCell.null, false, intErrMsg "not".toList) ∧
    (corregir_fecha_inteligente (.str "not-a-date")).2.2 ≠ "FORMATO_INVALIDO" := by
  constructor
  · rfl
  · decide

/-- C2 (amended): `resolve("not-a-date")` returns `(null, false)` with the
`ERROR:` tag of the failed integer conversion of the first component
`"not"` (the split gives exactly 3 components, none numeric);
`FORMATO_INVALIDO` is produced only when the split does not yield exactly
3 components, e.g. for `"1-2-3-4"`. -/
theorem c2_amended :
    corregir_fecha_inteligente (.str "not-a-date") =
      (DateCell.null, false, intErrMsg "not".toList) ∧
    corregir_fecha_inteligente (.str "1-2-3-4") =
      (DateCell.null, false, "FORMATO_INVALIDO") := by
  exact ⟨rfl, rfl⟩

/-- C6 (amended): when the raw string is non-blank, fails the strict
`%Y-%m-%d` parse, splits on dash/slash/dot into exactly 3 integer
components `anio`, `comp1 > 12`, `comp2 ≤ 12`, *and* the swapped
components `anio-comp2-min(comp1,31)` form a constructible timestamp, the
resolver returns that date, not ambiguous, tagged
`CORREGIDO_DDMM(comp1→dia)`.  (Without the constructibility premise the
rule instead yields `(null, false, ERROR_CORRECCION)` — see the
counterexample.) -/
theorem c6_amended (s : String) (p0 p1 p2 : List Char) (anio comp1 comp2 : Int) (d : Date)
    (hne : (pyStrip s.toList).isEmpty = false)
    (hstrict : pyStrictParseDate (pyStrip s.toList) = none)
    (hsplit : splitOnPred dateSep (pyStrip s.toList) = [p0, p1, p2])
    (h0 : pyInt p0 = some anio) (h1 : pyInt p1 = some comp1) (h2 : pyInt p2 = some comp2)
    (hc1 : comp1 > 12) (hc2 : comp2 ≤ 12)
    (hts : pdTimestampOfParts anio comp2 (min comp1 31) = some d) :
    corregir_fecha_inteligente (.str s) =
      (DateCell.ts d, false,
        "CORREGIDO_DDMM(" ++ toString comp1 ++ "→" ++ toString (min comp1 31) ++ ")") := by
  simp only [corregir_fecha_inteligente, dateCellChars, hne, hstrict, hsplit, h0, h1, h2,
    Bool.false_eq_true, if_false]
  rw [if_pos ⟨hc1, hc2⟩, hts]

/-- C6 (witness): `resolve("2024-13-05")` by the amended theorem —
swapped since `13 > 12` and `5 ≤ 12`, giving `2024-05-13`, not ambiguous,
tag `CORREGIDO_DDMM(13→13)`. -/
theorem c6_witness :
    (12 : Int) < 13 ∧ (5 : Int) ≤ 12 ∧
    corregir_fecha_inteligente (.str "2024-13-05") =
      (DateCell.ts ⟨2024, 5, 13⟩, false, "CORREGIDO_DDMM(13→13)") :=
  ⟨by decide, by decide,
   c6_amended "2024-13-05" "2024".toList "13".toList "05".toList 2024 13 5 ⟨2024, 5, 13⟩
     rfl rfl rfl rfl rfl rfl (by decide) (by decide) rfl⟩

/-- C6 (counterexample): the claim's universal statement fails without the
constructibility premise: `"2024-30-02"` has 3 integer components with
`comp1 = 30 > 12`, `comp2 = 2 ≤ 12`, but the swap targets February 30th,
whose `pd.Timestamp` construction fails, so the result is
`(null, false, ERROR_CORRECCION)`, not a corrected date. -/
theorem c6_counterexample :
    corregir_fecha_inteligente (.str "2024-30-02") =
      (DateCell.null, false, "ERROR_CORRECCION") := by
  rfl

/-- C7 (amended): the ambiguous month-day rule fires only when the strict
`%Y-%m-%d` parse has already failed (e.g. for slash or dot separators):
for a non-blank raw string that fails the strict parse and splits into 3
integer components with `comp1 ≤ 12` and `comp2 ≤ 12` forming a
constructible timestamp, the resolver assumes month-day and returns the
date, ambiguous, tagged `AMBIGUA_ASUMIDO_MMDD(comp1-comp2)`.  A string
such as `"2024-05-07"` that the strict parse accepts returns
`(date, false, VÁLIDA)` instead — see the counterexample. -/
theorem c7_amended (s : String) (p0 p1 p2 : List Char) (anio comp1 comp2 : Int) (d : Date)
    (hne : (pyStrip s.toList).isEmpty = false)
    (hstrict : pyStrictParseDate (pyStrip s.toList) = none)
    (hsplit : splitOnPred dateSep (pyStrip s.toList) = [p0, p1, p2])
    (h0 : pyInt p0 = some anio) (h1 : pyInt p1 = some comp1) (h2 : pyInt p2 = some comp2)
    (hc1 : comp1 ≤ 12) (hc2 : comp2 ≤ 12)
    (hts : pdTimestampOfParts anio comp1 (min comp2 31) = some d) :
    corregir_fecha_inteligente (.str s) =
      (DateCell.ts d, true,
        "AMBIGUA_ASUMIDO_MMDD(" ++ toString comp1 ++ "-" ++ toString comp2 ++ ")") := by
  simp only [corregir_fecha_inteligente, dateCellChars, hne, hstrict, hsplit, h0, h1, h2,
    Bool.false_eq_true, if_false]
  rw [if_neg (fun h => absurd h.1 (not_lt.mpr hc1)),
      if_neg (fun h => absurd h.2 (not_lt.mpr hc2)),
      if_pos ⟨hc1, hc2⟩, hts]

/-- C7 (witness): `resolve("2024/05/07")` (slash separators, so the strict
parse fails) by the amended theorem — both components `≤ 12`, assumed
month-day, ambiguous, tag `AMBIGUA_ASUMIDO_MMDD(5-7)`. -/
theorem c7_witness :
    (5 : Int) ≤ 12 ∧ (7 : Int) ≤ 12 ∧
    corregir_fecha_inteligente (.str "2024/05/07") =
      (DateCell.ts ⟨2024, 5, 7⟩, true, "AMBIGUA_ASUMIDO_MMDD(5-7)") :=
  ⟨by decide, by decide,
   c7_amended "2024/05/07" "2024".toList "05".toList "07".toList 2024 5 7 ⟨2024, 5, 7⟩
     rfl rfl rfl rfl rfl rfl (by decide) (by decide) rfl⟩

/-- C7 (counterexample): `resolve("2024-05-07")` is *not* flagged
ambiguous with tag `AMBIGUA_ASUMIDO_MMDD(5-7)`: the direct strict parse of
step 1 succeeds first and returns `(2024-05-07, false, VÁLIDA)`. -/
theorem c7_counterexample :
    corregir_fecha_inteligente (.str "2024-05-07") =
      (DateCell.ts ⟨2024, 5, 7⟩, false, "VÁLIDA") ∧
    (corregir_fecha_inteligente (.str "2024-05-07")).2.1 ≠ true ∧
    (corregir_fecha_inteligente (.str "2024-05-07")).2.2 ≠ "AMBIGUA_ASUMIDO_MMDD(5-7)" := by
  refine ⟨rfl, ?_, ?_⟩ <;> decide

/-- C8: `determinar_estado` keeps a non-null status unchanged, and imputes
a null one as `No Programada` (null resolved date), `Completada` (resolved
date before the processing instant, i.e. its date is `≤ hoy`, the instant
being past midnight of `hoy`), or `Programada` (otherwise, a future
date). -/
theorem c8_determinar_estado (hoy : Date) (r : CitaRow) :
    (r.estado_cita = none → r.fecha_cita = DateCell.null →
       determinar_estado hoy r = "No Programada") ∧
    (∀ d, r.estado_cita = none → r.fecha_cita = DateCell.ts d → dateLe d hoy = true →
       determinar_estado hoy r = "Completada") ∧
    (∀ d, r.estado_cita = none → r.fecha_cita = DateCell.ts d → dateLe d hoy = false →
       determinar_estado hoy r = "Programada") ∧
    (∀ s, r.estado_cita = some s → determinar_estado hoy r = s) := by
  refine ⟨?_, ?_, ?_, ?_⟩ <;> intros <;> simp [determinar_estado, *]

/-- C8 (witness): the four branches at concrete rows — null date, a past
date, a future date, and an existing status, all on the fixed processing
date. -/
theorem c8_witness :
    determinar_estado fechaHoy citaVacia = "No Programada" ∧
    determinar_estado fechaHoy { citaVacia with fecha_cita := .ts ⟨2024, 5, 13⟩ } = "Completada" ∧
    determinar_estado fechaHoy { citaVacia with fecha_cita := .ts ⟨2027, 1, 1⟩ } = "Programada" ∧
    determinar_estado fechaHoy { citaVacia with estado_cita := some "Cancelada" } = "Cancelada" :=
  ⟨(c8_determinar_estado fechaHoy citaVacia).1 rfl rfl,
   (c8_determinar_estado fechaHoy _).2.1 ⟨2024, 5, 13⟩ rfl rfl (by decide),
   (c8_determinar_estado fechaHoy _).2.2.1 ⟨2027, 1, 1⟩ rfl rfl (by decide),
   (c8_determinar_estado fechaHoy _).2.2.2 "Cancelada" rfl⟩

/-- Helper: `overall_passed` is exactly the conjunction of the referential
check and the date-coherence check — tests 3 to 6 never write it. -/
theorem overall_passed_eq (hoy : Date) (p c : DataFrame) :
    (validate_all_integrity hoy p c).overall_passed =
      ((validate_all_integrity hoy p c).referencial_pacientes.passed &&
       (validate_all_integrity hoy p c).coherencia_fechas.passed) := by
  simp only [validate_all_integrity]
  cases (validate_foreign_keys c "id_paciente" p "id_paciente").passed <;>
    cases (validate_date_coherence hoy c "fecha_cita" 730).passed <;> rfl

/-- Helper: a failing age-range sub-result is counted in `failed_tests`. -/
theorem age_fail_counted (hoy : Date) (p c : DataFrame) (r : RangeResult)
    (hR : (validate_all_integrity hoy p c).rango_edad = some r)
    (hpf : r.passed = false) :
    1 ≤ (validate_all_integrity hoy p c).failed_tests := by
  simp only [validate_all_integrity] at hR ⊢
  by_cases h : p.hasCol "edad" = true
  · rw [if_pos h] at hR
    obtain rfl := Option.some.inj hR
    rw [if_pos h]
    simp only [List.filter_append, List.length_append, Option.map_some', Option.toList_some,
      hpf]
    have h1 : (List.filter (fun b => !b) [false]).length = 1 := rfl
    omega
  · rw [if_neg h] at hR
    exact absurd hR (by simp)

/-- Helper: a failing patients duplicate-id sub-result is counted in
`failed_tests`. -/
theorem uniqP_fail_counted (hoy : Date) (p c : DataFrame) (u : UniqIdResult)
    (hR : (validate_all_integrity hoy p c).unicidad_pacientes = some u)
    (hpf : u.passed = false) :
    1 ≤ (validate_all_integrity hoy p c).failed_tests := by
  simp only [validate_all_integrity] at hR ⊢
  obtain ⟨col, hcol, rfl⟩ := Option.map_eq_some'.mp hR
  rw [hcol]
  simp only [List.filter_append, List.length_append, Option.map_some', Option.toList_some,
    hpf]
  have h1 : (List.filter (fun b => !b) [false]).length = 1 := rfl
  omega

/-- Helper: a failing appointments duplicate-id sub-result is counted in
`failed_tests`. -/
theorem uniqC_fail_counted (hoy : Date) (p c : DataFrame) (u : UniqIdResult)
    (hR : (validate_all_integrity hoy p c).unicidad_citas = some u)
    (hpf : u.passed = false) :
    1 ≤ (validate_all_integrity hoy p c).failed_tests := by
  simp only [validate_all_integrity] at hR ⊢
  obtain ⟨col, hcol, rfl⟩ := Option.map_eq_some'.mp hR
  rw [hcol]
  simp only [List.filter_append, List.length_append, Option.map_some', Option.toList_some,
    hpf]
  have h1 : (List.filter (fun b => !b) [false]).length = 1 := rfl
  omega

/-- C1 (counterexample): a failing age-range check does *not* make
`overall_passed` false (first two conjuncts: age 130 fails the range check
yet the report's overall boolean is `true`), and neither does a failing
duplicate-identifier check (last two conjuncts). -/
theorem c1_counterexample :
    ((validate_all_integrity fechaHoy pacientesEdadInvalida citasCoherentes).rango_edad.map
        (fun r => r.passed)) = some false ∧
    (validate_all_integrity fechaHoy pacientesEdadInvalida citasCoherentes).overall_passed
      = true ∧
    ((validate_all_integrity fechaHoy pacientesIdDuplicado citasCoherentes).unicidad_pacientes.map
        (fun r => r.passed)) = some false ∧
    (validate_all_integrity fechaHoy pacientesIdDuplicado citasCoherentes).overall_passed
      = true := by
  refine ⟨?_, ?_, ?_, ?_⟩ <;> decide

/-- C1 (amended): in `validate_all_integrity`, failing age-range or
duplicate-identifier checks are counted in the `failed_tests` counter but
do not gate the aggregate pass boolean: `overall_passed` is exactly the
conjunction of the referential-integrity and date-coherence results. -/
theorem c1_amended :
    (∀ (hoy : Date) (p c : DataFrame),
       (validate_all_integrity hoy p c).overall_passed =
         ((validate_all_integrity hoy p c).referencial_pacientes.passed &&
          (validate_all_integrity hoy p c).coherencia_fechas.passed)) ∧
    (∀ (hoy : Date) (p c : DataFrame) (r : RangeResult),
       (validate_all_integrity hoy p c).rango_edad = some r → r.passed = false →
       1 ≤ (validate_all_integrity hoy p c).failed_tests) ∧
    (∀ (hoy : Date) (p c : DataFrame) (u : UniqIdResult),
       (validate_all_integrity hoy p c).unicidad_pacientes = some u → u.passed = false →
       1 ≤ (validate_all_integrity hoy p c).failed_tests) ∧
    (∀ (hoy : Date) (p c : DataFrame) (u : UniqIdResult),
       (validate_all_integrity hoy p c).unicidad_citas = some u → u.passed = false →
       1 ≤ (validate_all_integrity hoy p c).failed_tests) :=
  ⟨overall_passed_eq, age_fail_counted, uniqP_fail_counted, uniqC_fail_counted⟩

/-- C1 (witness): the amended theorem applied at the concrete age-failing
tables: the overall boolean equals the two gating results, and the failed
counter is at least one. -/
theorem c1_witness :
    (validate_all_integrity fechaHoy pacientesEdadInvalida citasCoherentes).overall_passed =
      ((validate_all_integrity fechaHoy pacientesEdadInvalida citasCoherentes).referencial_pacientes.passed &&
       (validate_all_integrity fechaHoy pacientesEdadInvalida citasCoherentes).coherencia_fechas.passed) ∧
    1 ≤ (validate_all_integrity fechaHoy pacientesEdadInvalida citasCoherentes).failed_tests :=
  ⟨c1_amended.1 fechaHoy pacientesEdadInvalida citasCoherentes,
   c1_amended.2.1 fechaHoy pacientesEdadInvalida citasCoherentes
     (validate_numeric_range pacientesEdadInvalida "edad" (some 0) (some 120))
     (by decide) (by decide)⟩

/-- C9: in `validate_column_values` a null cell counts as invalid — any
table whose checked column contains a null reports `invalid_count ≥ 1` and
`passed = false` even if every non-null value is allowed — and this check
does not gate `validate_all_integrity`'s overall boolean, which is the
conjunction of the referential and date-coherence results alone. -/
theorem c9_nulls_invalid :
    (∀ (df : DataFrame) (column : String) (vs : List String) (col : List Value),
       df.find? column = some col → Value.null ∈ col →
       1 ≤ (validate_column_values df column vs).invalid_count ∧
       (validate_column_values df column vs).passed = false) ∧
    (∀ (hoy : Date) (p c : DataFrame),
       (validate_all_integrity hoy p c).overall_passed =
         ((validate_all_integrity hoy p c).referencial_pacientes.passed &&
          (validate_all_integrity hoy p c).coherencia_fechas.passed)) := by
  constructor
  · intro df column vs col hfind hmem
    simp only [validate_column_values, hfind]
    have hp : Value.null ∈ col.filter
        (fun v => decide (¬Value.isinStrs v vs = true ∨ Value.isna v = true)) :=
      List.mem_filter.mpr ⟨hmem, by simp [Value.isinStrs, Value.isna]⟩
    have hlen := List.length_pos_of_mem hp
    constructor
    · exact hlen
    · simp only [decide_eq_false_iff_not]
      omega
  · exact overall_passed_eq

/-- C9 (witness): the theorem applied at the concrete null-containing
column: the value-set check fails with at least one invalid cell. -/
theorem c9_witness :
    1 ≤ (validate_column_values citasConEstadoNulo "estado_cita" estadosValidos).invalid_count ∧
    (validate_column_values citasConEstadoNulo "estado_cita" estadosValidos).passed = false :=
  c9_nulls_invalid.1 citasConEstadoNulo "estado_cita" estadosValidos
    [.str "Completada", .null, .str "Programada"] rfl (by decide)

/-- C4 (counterexample): `validate_not_null` and `validate_unique` do
raise on a missing column: `self.df[column]` is unguarded, so validating
any absent column (here `"edad"` on an empty table) is a `KeyError`, not a
structured `passed=False` result. -/
theorem c4_counterexample :
    validate_not_null ⟨0, []⟩ "edad" (95 / 100) = Except.error ("KeyError: edad") ∧
    validate_unique ⟨0, []⟩ "edad" = Except.error ("KeyError: edad") :=
  ⟨rfl, rfl⟩

/-- C4 (amended): on a missing column, the guarded checks (format, range,
value-set, consistency) return a structured `passed=False` result with a
descriptive message and never raise, while the unguarded `validate_not_null`
and `validate_unique` raise a `KeyError`. -/
theorem c4_amended (df : DataFrame) (column column2 : String)
    (hcol : df.find? column = none) (threshold : Rat) (pattern : String → Bool)
    (minVal maxVal : Option Rat) (allowed : List Value)
    (ruleFunc : Value → Value → Bool) :
    validate_not_null df column threshold = Except.error ("KeyError: " ++ column) ∧
    validate_unique df column = Except.error ("KeyError: " ++ column) ∧
    validate_format df column pattern =
      { column := column, total_checked := 0, invalid_count := 0, passed := false,
        message := "Columna " ++ column ++ " no existe", invalid_examples := [] } ∧
    DataValidator.validate_range df column minVal maxVal =
      { column := column, total_checked := 0, out_of_range_count := 0, passed := false,
        message := "Columna " ++ column ++ " no existe", out_of_range_examples := [] } ∧
    validate_value_set df column allowed =
      { column := column, total_checked := 0, invalid_count := 0, passed := false,
        message := "Columna " ++ column ++ " no existe", invalid_examples := [],
        unique_invalid_values := [] } ∧
    validate_consistency df column column2 ruleFunc =
      { columns := [column, column2], total_checked := 0, inconsistent_count := 0,
        passed := false,
        message := "Columnas no existen: " ++ column ++ ", " ++ column2 } := by
  refine ⟨?_, ?_, ?_, ?_, ?_, ?_⟩ <;>
    simp [validate_not_null, validate_unique, validate_format, DataValidator.validate_range,
      validate_value_set, validate_consistency, hcol]

/-- C4 (witness): the amended theorem applied at an empty table and the
absent column `"edad"`: the two unguarded checks error and the format
check returns its structured failure. -/
theorem c4_witness :
    validate_not_null ⟨0, []⟩ "edad" (95 / 100) = Except.error ("KeyError: edad") ∧
    (validate_format ⟨0, []⟩ "edad" (fun _ => true)).passed = false :=
  ⟨(c4_amended ⟨0, []⟩ "edad" "x" rfl (95 / 100) (fun _ => true) none none [] (fun _ _ => true)).1,
   by rw [(c4_amended ⟨0, []⟩ "edad" "x" rfl (95 / 100) (fun _ => true) none none []
       (fun _ _ => true)).2.2.1]⟩

/-- Helper: step 1 does not touch the cost column. -/
theorem costo_corregirFilaFecha (r : CitaRow) : (corregirFilaFecha r).costo = r.costo := rfl

/-- Helper: step 1 does not touch the specialty column. -/
theorem esp_corregirFilaFecha (r : CitaRow) :
    (corregirFilaFecha r).especialidad = r.especialidad := rfl

/-- Helper: step 2 does not touch the cost column. -/
theorem costo_maxFuturoFila (hoy : Date) (r : CitaRow) :
    (maxFuturoFila hoy r).costo = r.costo := rfl

/-- Helper: step 2 does not touch the specialty column. -/
theorem esp_maxFuturoFila (hoy : Date) (r : CitaRow) :
    (maxFuturoFila hoy r).especialidad = r.especialidad := rfl

/-- Helper: step 4 does not touch the cost column. -/
theorem costo_determinarEstadoFila (hoy : Date) (r : CitaRow) :
    (determinarEstadoFila hoy r).costo = r.costo := rfl

/-- Helper: step 5 does not touch the cost column. -/
theorem costo_pacienteValidoFila (ids : List (Option Int)) (r : CitaRow) :
    (pacienteValidoFila ids r).costo = r.costo := rfl

/-- Helper: step 6 does not touch the cost column. -/
theorem costo_anioMesFila (r : CitaRow) : (anioMesFila r).costo = r.costo := rfl

/-- Helper: `limpiar_citas` as a single row map (the group statistics are
computed once, from the table after the date steps). -/
theorem limpiarCitas_eq_map (hoy : Date) (pacs : List PacienteRow) (citas : List CitaRow) :
    limpiarCitas hoy pacs citas = citas.map (fun r =>
      anioMesFila (pacienteValidoFila (pacs.map (fun p => p.id_paciente))
        (determinarEstadoFila hoy (completar_costo
          (grupoKeys ((citas.map corregirFilaFecha).map (maxFuturoFila hoy)))
          (fun e => medianQ (observedCosts
            ((citas.map corregirFilaFecha).map (maxFuturoFila hoy)) e))
          (maxFuturoFila hoy (corregirFilaFecha r)))))) := by
  simp only [limpiarCitas, List.map_map]
  rfl

/-- Helper: the date steps change neither costs nor specialties, so the
observed cost groups of `paso2` are those of the raw table. -/
theorem observedCosts_paso2 (hoy : Date) (citas : List CitaRow) (e : String) :
    observedCosts ((citas.map corregirFilaFecha).map (maxFuturoFila hoy)) e =
      observedCosts citas e := by
  simp only [observedCosts, List.map_map, List.filterMap_map]
  rfl

/-- Helper: likewise for the group index. -/
theorem grupoKeys_paso2 (hoy : Date) (citas : List CitaRow) :
    grupoKeys ((citas.map corregirFilaFecha).map (maxFuturoFila hoy)) = grupoKeys citas := by
  simp only [grupoKeys, List.map_map, List.filterMap_map]
  rfl

/-- C3 (amended): cost imputation fills a null cost with the per-specialty
median of the non-null observed costs (first conjunct: non-null costs are
untouched; second: a null cost with specialty `e` becomes the median of
`e`'s observed costs; third: with no observed cost for `e` it stays null).
On `Cardiología` with observed costs `[100, 200, null]` the imputed value
is `150` — the mean of the two observed values — not `200`; see the
counterexample. -/
theorem c3_amended :
    (∀ (hoy : Date) (pacs : List PacienteRow) (citas : List CitaRow) (i : Nat)
       (r : CitaRow) (q : Rat),
       citas[i]? = some r → r.costo = some q →
       ((limpiarCitas hoy pacs citas)[i]?.map (fun x => x.costo)) = some (some q)) ∧
    (∀ (hoy : Date) (pacs : List PacienteRow) (citas : List CitaRow) (i : Nat)
       (r : CitaRow) (e : String),
       citas[i]? = some r → r.costo = none → r.especialidad = some e →
       ((limpiarCitas hoy pacs citas)[i]?.map (fun x => x.costo)) =
         some (medianQ (observedCosts citas e))) ∧
    (∀ (hoy : Date) (pacs : List PacienteRow) (citas : List CitaRow) (i : Nat)
       (r : CitaRow) (e : String),
       citas[i]? = some r → r.costo = none → r.especialidad = some e →
       observedCosts citas e = [] →
       ((limpiarCitas hoy pacs citas)[i]?.map (fun x => x.costo)) = some none) := by
  have hB : ∀ (hoy : Date) (pacs : List PacienteRow) (citas : List CitaRow) (i : Nat)
      (r : CitaRow) (e : String),
      citas[i]? = some r → r.costo = none → r.especialidad = some e →
      ((limpiarCitas hoy pacs citas)[i]?.map (fun x => x.costo)) =
        some (medianQ (observedCosts citas e)) := by
    intro hoy pacs citas i r e hget hcosto hesp
    have hmem : r ∈ citas := by
      obtain ⟨h, rfl⟩ := List.getElem?_eq_some_iff.mp hget
      exact List.getElem_mem h
    have hkey : e ∈ grupoKeys citas :=
      List.mem_dedup.mpr (List.mem_filterMap.mpr ⟨r, hmem, hesp⟩)
    rw [limpiarCitas_eq_map, List.getElem?_map, hget, Option.map_some']
    simp only [costo_anioMesFila, costo_pacienteValidoFila, costo_determinarEstadoFila,
      completar_costo, costo_maxFuturoFila, costo_corregirFilaFecha, esp_maxFuturoFila,
      esp_corregirFilaFecha, hcosto, hesp, grupoKeys_paso2, observedCosts_paso2]
    rw [if_pos hkey]
    simp [costo_anioMesFila, costo_pacienteValidoFila, costo_determinarEstadoFila]
  refine ⟨?_, hB, ?_⟩
  · intro hoy pacs citas i r q hget hcosto
    rw [limpiarCitas_eq_map, List.getElem?_map, hget, Option.map_some']
    simp only [costo_anioMesFila, costo_pacienteValidoFila, costo_determinarEstadoFila,
      completar_costo, costo_maxFuturoFila, costo_corregirFilaFecha, esp_maxFuturoFila,
      esp_corregirFilaFecha, hcosto]
    simp [costo_anioMesFila, costo_pacienteValidoFila, costo_determinarEstadoFila,
      costo_maxFuturoFila, costo_corregirFilaFecha, hcosto]
  · intro hoy pacs citas i r e hget hcosto hesp hobs
    rw [hB hoy pacs citas i r e hget hcosto hesp, hobs]
    rfl

/-- Helper: the pandas median of the observed `Cardiología` costs
`[100, 200]` is `150`, the mean of the two. -/
theorem median_cardio : medianQ (observedCosts citasCardiologia "Cardiología") = some 150 := by
  norm_num [observedCosts, citasCardiologia, citaCardio, citaVacia, medianQ, sortRats,
    insertSorted, List.filterMap_cons, List.filterMap_nil]

/-- Helper: the cleaned third row carries the group median as its cost. -/
theorem costo_imputado_cardiologia :
    ((limpiarCitas fechaHoy [] citasCardiologia)[2]?.map (fun x => x.costo)) =
      some (medianQ (observedCosts citasCardiologia "Cardiología")) := by
  have hget : citasCardiologia[2]? = some (citaCardio 3 none) := rfl
  have hkey : "Cardiología" ∈ grupoKeys citasCardiologia := by decide
  rw [limpiarCitas_eq_map, List.getElem?_map, hget, Option.map_some']
  simp only [costo_anioMesFila, costo_pacienteValidoFila, costo_determinarEstadoFila,
    completar_costo, costo_maxFuturoFila, costo_corregirFilaFecha, esp_maxFuturoFila,
    esp_corregirFilaFecha, grupoKeys_paso2, observedCosts_paso2, citaCardio, citaVacia]
  rw [if_pos hkey]
  rfl

/-- C3 (counterexample): for `Cardiología` with observed costs
`[100, 200, null]`, the imputed null cost is `150` (the pandas median of
`[100, 200]`, the mean of the two), not `200` as the claim states. -/
theorem c3_counterexample :
    ((limpiarCitas fechaHoy [] citasCardiologia)[2]?.map (fun x => x.costo)) =
      some (some 150) ∧
    ((limpiarCitas fechaHoy [] citasCardiologia)[2]?.map (fun x => x.costo)) ≠
      some (some 200) := by
  rw [costo_imputado_cardiologia, median_cardio]
  exact ⟨rfl, by decide⟩

/-- C3 (witness): the amended theorem applied at the concrete table: the
third row's null cost becomes the group median, which evaluates to 150. -/
theorem c3_witness :
    ((limpiarCitas fechaHoy [] citasCardiologia)[2]?.map (fun x => x.costo)) =
      some (medianQ (observedCosts citasCardiologia "Cardiología")) ∧
    medianQ (observedCosts citasCardiologia "Cardiología") = some 150 :=
  ⟨c3_amended.2.1 fechaHoy [] citasCardiologia 2 _ "Cardiología" rfl rfl rfl, median_cardio⟩

/-- C10: the pipeline never mutates the caller's tables.
`DataCleaner.__init__` copies both tables into freshly allocated
references, and the pipeline writes only through the cleaner's own
references, so for every heap and every valid caller reference pair the
contents the caller sees are unchanged after the full run. -/
theorem c10_no_mutation (hoy : Date) (h : Heap) (rP rC : Nat)
    (hP : rP < h.nextP) (hC : rC < h.nextC) :
    (DataCleaner.ejecutarPipelineHeap hoy (DataCleaner.crear h rP rC).1
        (DataCleaner.crear h rP rC).2).memP rP = h.memP rP ∧
    (DataCleaner.ejecutarPipelineHeap hoy (DataCleaner.crear h rP rC).1
        (DataCleaner.crear h rP rC).2).memC rC = h.memC rC := by
  have hPne : rP ≠ h.nextP := Nat.ne_of_lt hP
  have hCne : rC ≠ h.nextC := Nat.ne_of_lt hC
  constructor <;>
    simp [DataCleaner.crear, DataCleaner.ejecutarPipelineHeap, escribirP, escribirC,
      hPne, hCne]

/-- C10 (witness): the theorem applied at a concrete heap with the caller
holding reference 0 of each space: both of the caller's tables read back
unchanged after the pipeline. -/
theorem c10_witness :
    (DataCleaner.ejecutarPipelineHeap fechaHoy (DataCleaner.crear heapVacia 0 0).1
        (DataCleaner.crear heapVacia 0 0).2).memP 0 = ([] : List PacienteRow) ∧
    (DataCleaner.ejecutarPipelineHeap fechaHoy (DataCleaner.crear heapVacia 0 0).1
        (DataCleaner.crear heapVacia 0 0).2).memC 0 = ([] : List CitaRow) :=
  ⟨(c10_no_mutation fechaHoy heapVacia 0 0 (by decide) (by decide)).1,
   (c10_no_mutation fechaHoy heapVacia 0 0 (by decide) (by decide)).2⟩

/-- Helper: `dropWhile` is idempotent. -/
theorem dropWhile_dropWhile (p : Char → Bool) (l : List Char) :
    (l.dropWhile p).dropWhile p = l.dropWhile p := by
  induction l with
  | nil => rfl
  | cons c rest ih =>
      by_cases h : p c <;> simp [List.dropWhile_cons, h, ih]

/-- Helper: `dropWhile` never lengthens a list. -/
theorem length_dropWhile_le (p : Char → Bool) (l : List Char) :
    (l.dropWhile p).length ≤ l.length := by
  induction l with
  | nil => simp
  | cons c rest ih =>
      by_cases h : p c
      · simp only [List.dropWhile_cons, h, if_true, List.length_cons]
        omega
      · simp [List.dropWhile_cons, h]

/-- Helper: trimming the right end preserves left-trimmedness. -/
theorem dropWhile_rtrim (p : Char → Bool) (l : List Char) (hl : l.dropWhile p = l) :
    ((l.reverse.dropWhile p).reverse).dropWhile p = (l.reverse.dropWhile p).reverse := by
  have hsplit : l = (l.reverse.dropWhile p).reverse ++ (l.reverse.takeWhile p).reverse := by
    conv_lhs => rw [← l.reverse_reverse,
      ← List.takeWhile_append_dropWhile (p := p) (l := l.reverse)]
    rw [List.reverse_append]
  cases hb : (l.reverse.dropWhile p).reverse with
  | nil => rfl
  | cons x xs =>
      have hx : ¬p x = true := by
        rw [hb] at hsplit
        have hd : l.dropWhile p = l := hl
        rw [hsplit] at hd
        intro hpx
        rw [List.cons_append, List.dropWhile_cons, if_pos hpx] at hd
        have hlen := congrArg List.length hd
        have hle := length_dropWhile_le p (xs ++ (l.reverse.takeWhile p).reverse)
        simp [List.length_append] at hlen hle
        omega
      simp [List.dropWhile_cons, hx]

/-- Helper: Python `strip` is idempotent. -/
theorem pyStrip_idem (l : List Char) : pyStrip (pyStrip l) = pyStrip l := by
  have ha : (l.dropWhile pyIsSpace).dropWhile pyIsSpace = l.dropWhile pyIsSpace :=
    dropWhile_dropWhile pyIsSpace l
  have hb := dropWhile_rtrim pyIsSpace (l.dropWhile pyIsSpace) ha
  show pyStrip (((l.dropWhile pyIsSpace).reverse.dropWhile pyIsSpace).reverse) = _
  unfold pyStrip
  rw [hb, List.reverse_reverse, dropWhile_dropWhile]

/-- Helper: `strip` commutes with a character map that preserves
whitespace-ness. -/
theorem pyStrip_map (f : Char → Char) (hf : ∀ c, pyIsSpace (f c) = pyIsSpace c)
    (l : List Char) : pyStrip (l.map f) = (pyStrip l).map f := by
  have hcomp : (pyIsSpace ∘ f) = pyIsSpace := funext hf
  unfold pyStrip
  rw [List.dropWhile_map, hcomp, ← List.map_reverse, List.dropWhile_map, hcomp,
    ← List.map_reverse]

/-- Helper: splitting a list that starts with a separator-free prefix
followed by a separator peels off that prefix. -/
theorem splitOnPred_sep (p : Char → Bool) (a l : List Char) (sep : Char)
    (hsep : p sep = true) (ha : ∀ c ∈ a, p c = false) :
    splitOnPred p (a ++ sep :: l) = a :: splitOnPred p l := by
  induction a with
  | nil => simp [splitOnPred, hsep]
  | cons c cs ih =>
      have hc : p c = false := ha c (List.mem_cons_self c cs)
      have ih2 := ih (fun x hx => ha x (List.mem_cons_of_mem c hx))
      simp only [List.cons_append, splitOnPred, hc, Bool.false_eq_true, if_false,
        List.append_eq, ih2]

/-- Helper: a separator-free list splits into itself. -/
theorem splitOnPred_noSep (p : Char → Bool) (a : List Char)
    (ha : ∀ c ∈ a, p c = false) : splitOnPred p a = [a] := by
  induction a with
  | nil => rfl
  | cons c cs ih =>
      have hc : p c = false := ha c (List.mem_cons_self c cs)
      have ih2 := ih (fun x hx => ha x (List.mem_cons_of_mem c hx))
      simp only [splitOnPred, hc, Bool.false_eq_true, if_false, List.append_eq, ih2]

/-- Helper: the pieces of a split contain no separator. -/
theorem mem_splitOnPred_noSep (p : Char → Bool) (l : List Char) :
    ∀ t ∈ splitOnPred p l, ∀ c ∈ t, p c = false := by
  induction l with
  | nil =>
      intro t ht c hc
      simp [splitOnPred] at ht
      subst ht
      simp at hc
  | cons x rest ih =>
      intro t ht c hc
      by_cases hx : p x
      · simp only [splitOnPred, hx, if_true] at ht
        rcases List.mem_cons.mp ht with rfl | ht2
        · simp at hc
        · exact ih t ht2 c hc
      · simp only [splitOnPred, hx, Bool.false_eq_true, if_false] at ht
        cases hsp : splitOnPred p rest with
        | nil => 
            rw [hsp] at ht
            rcases List.mem_cons.mp ht with rfl | ht2
            · rcases List.mem_cons.mp hc with rfl | hc2
              · simpa using hx
              · simp at hc2
            · simp at ht2
        | cons h tl =>
            rw [hsp] at ht
            rcases List.mem_cons.mp ht with rfl | ht2
            · rcases List.mem_cons.mp hc with rfl | hc2
              · simpa using hx
              · exact ih h (hsp ▸ List.mem_cons_self h tl) c hc2
            · exact ih t (hsp ▸ List.mem_cons_of_mem h ht2) c hc

/-- Helper: filtering to digits twice is filtering once. -/
theorem filter_isDigit_idem (l : List Char) :
    (l.filter Char.isDigit).filter Char.isDigit = l.filter Char.isDigit := by
  rw [List.filter_filter]
  congr 1
  funext a
  rw [Bool.and_self]

/-- Helper: phone cleanup is idempotent — a kept value is digits-only of
length 7–15, which the second pass keeps verbatim. -/
theorem limpiar_telefono_idem (t : Option String) :
    limpiar_telefono (limpiar_telefono t) = limpiar_telefono t := by
  cases t with
  | none => rfl
  | some s =>
      have key : ∀ d : List Char, d.filter Char.isDigit = d →
          limpiar_telefono (some (String.mk d)) =
            (if 7 ≤ d.length ∧ d.length ≤ 15 then some (String.mk d) else none) := by
        intro d hd
        simp only [limpiar_telefono]
        rw [show (String.mk d).toList = d from rfl, hd]
      have hinner : limpiar_telefono (some s) =
          (if 7 ≤ (s.toList.filter Char.isDigit).length ∧
              (s.toList.filter Char.isDigit).length ≤ 15 then
            some (String.mk (s.toList.filter Char.isDigit)) else none) := rfl
      by_cases h : 7 ≤ (s.toList.filter Char.isDigit).length ∧
          (s.toList.filter Char.isDigit).length ≤ 15
      · rw [hinner, if_pos h, key (s.toList.filter Char.isDigit) (filter_isDigit_idem s.toList),
          if_pos h]
      · rw [hinner, if_neg h]
        rfl

/-- Helper: email validation is idempotent — a kept value is already
stripped and lower-cased, and matches the pattern again. -/
theorem validar_email_idem (e : Option String) :
    validar_email (validar_email e) = validar_email e := by
  cases e with
  | none => rfl
  | some s =>
      have hstr : pyStrip ((pyStrip s.toList).map chLower) = (pyStrip s.toList).map chLower := by
        rw [pyStrip_map chLower pyIsSpace_chLower, pyStrip_idem]
      have hlow : ((pyStrip s.toList).map chLower).map chLower = (pyStrip s.toList).map chLower := by
        rw [List.map_map]
        congr 1
        funext c
        exact chLower_idem c
      have hinner : validar_email (some s) =
          (if emailMatch ((pyStrip s.toList).map chLower) then
            some (String.mk ((pyStrip s.toList).map chLower)) else none) := rfl
      by_cases hm : emailMatch ((pyStrip s.toList).map chLower)
      · rw [hinner, if_pos hm]
        have hout : validar_email (some (String.mk ((pyStrip s.toList).map chLower))) =
            (if emailMatch ((pyStrip ((pyStrip s.toList).map chLower)).map chLower) then
              some (String.mk ((pyStrip ((pyStrip s.toList).map chLower)).map chLower))
             else none) := rfl
        rw [hout, hstr, hlow, if_pos hm]
      · rw [hinner, if_neg hm]
        rfl

/-- Helper: sex normalisation is idempotent — the output is null, `F` or
`M`, each a fixed point. -/
theorem normalizarSexo_idem (x : Option String) :
    normalizarSexo (normalizarSexo x) = normalizarSexo x := by
  cases x with
  | none => rfl
  | some s =>
      have htr : normalizarSexo (some s) = none ∨ normalizarSexo (some s) = some "F" ∨
          normalizarSexo (some s) = some "M" := by
        simp only [normalizarSexo]
        split
        · right; left; rfl
        · split
          · right; right; rfl
          · left; rfl
      rcases htr with h | h | h <;> rw [h] <;> rfl

/-- Helper: age computation is idempotent — a parseable birth date fully
determines the output; otherwise the age passes through. -/
theorem calcular_edad_idem (hoy : Date) (f : Option String) (e : Option Int) :
    calcular_edad_desde_fecha hoy f (calcular_edad_desde_fecha hoy f e) =
      calcular_edad_desde_fecha hoy f e := by
  cases f with
  | none => rfl
  | some fs =>
      simp only [calcular_edad_desde_fecha]
      cases h : parseFlexDate fs <;> simp [h]

/-- Helper: `str.capitalize` is idempotent (ASCII). -/
theorem pyCapitalize_idem (w : List Char) :
    pyCapitalize (pyCapitalize w) = pyCapitalize w := by
  cases w with
  | nil => rfl
  | cons c rest =>
      simp only [pyCapitalize, chUpper_idem, List.map_map]
      rw [show (chLower ∘ chLower) = chLower from funext chLower_idem]

/-- Helper: `str.split()` yields nonempty whitespace-free tokens. -/
theorem mem_pySplitWs_props (l : List Char) :
    ∀ t ∈ pySplitWs l, t ≠ [] ∧ ∀ c ∈ t, pyIsSpace c = false := by
  intro t ht
  have h1 := List.mem_filter.mp ht
  refine ⟨?_, mem_splitOnPred_noSep pyIsSpace l t h1.1⟩
  have := h1.2
  simpa [List.isEmpty_iff] using this

/-- Helper: splitting a single-space join of nonempty whitespace-free
tokens recovers the tokens. -/
theorem splitWs_joinWords (tokens : List (List Char))
    (h : ∀ t ∈ tokens, t ≠ [] ∧ ∀ c ∈ t, pyIsSpace c = false) :
    pySplitWs (joinWords tokens) = tokens := by
  induction tokens with
  | nil => rfl
  | cons t ts ih =>
      cases ts with
      | nil =>
          have ht := h t (List.mem_cons_self t [])
          show ((splitOnPred pyIsSpace (joinWords [t])).filter fun x => ¬x.isEmpty) = [t]
          rw [show joinWords [t] = t from rfl, splitOnPred_noSep pyIsSpace t ht.2]
          simp [List.isEmpty_iff, ht.1]
      | cons t2 ts2 =>
          have ht := h t (List.mem_cons_self t (t2 :: ts2))
          show ((splitOnPred pyIsSpace (joinWords (t :: t2 :: ts2))).filter
              fun x => ¬x.isEmpty) = t :: t2 :: ts2
          rw [show joinWords (t :: t2 :: ts2) = t ++ ' ' :: joinWords (t2 :: ts2) from rfl,
            splitOnPred_sep pyIsSpace t (joinWords (t2 :: ts2)) ' ' (by decide) ht.2,
            List.filter_cons_of_pos (by simpa [List.isEmpty_iff] using ht.1)]
          congr 1
          exact ih (fun x hx => h x (List.mem_cons_of_mem t hx))

/-- Helper: capitalisation preserves nonemptiness and
whitespace-freeness. -/
theorem pyCapitalize_props (w : List Char) (hw : w ≠ [])
    (hns : ∀ c ∈ w, pyIsSpace c = false) :
    pyCapitalize w ≠ [] ∧ ∀ c ∈ pyCapitalize w, pyIsSpace c = false := by
  cases w with
  | nil => exact absurd rfl hw
  | cons c rest =>
      refine ⟨by simp [pyCapitalize], ?_⟩
      intro a ha
      simp only [pyCapitalize] at ha
      rcases List.mem_cons.mp ha with rfl | ha2
      · rw [pyIsSpace_chUpper]
        exact hns c (List.mem_cons_self c rest)
      · obtain ⟨b, hb, rfl⟩ := List.mem_map.mp ha2
        rw [pyIsSpace_chLower]
        exact hns b (List.mem_cons_of_mem c hb)

/-- Helper: name normalisation is idempotent. -/
theorem normalizar_nombre_idem (n : Option String) :
    normalizar_nombre (normalizar_nombre n) = normalizar_nombre n := by
  cases n with
  | none => rfl
  | some s =>
      have htoks := mem_pySplitWs_props s.toList
      have hprops : ∀ t ∈ (pySplitWs s.toList).map pyCapitalize,
          t ≠ [] ∧ ∀ c ∈ t, pyIsSpace c = false := by
        intro t ht
        obtain ⟨w, hw, rfl⟩ := List.mem_map.mp ht
        exact pyCapitalize_props w (htoks w hw).1 (htoks w hw).2
      have hinner : normalizar_nombre (some s) =
          some (String.mk (joinWords ((pySplitWs s.toList).map pyCapitalize))) := rfl
      rw [hinner]
      have hout : normalizar_nombre
          (some (String.mk (joinWords ((pySplitWs s.toList).map pyCapitalize)))) =
          some (String.mk (joinWords ((pySplitWs
            (joinWords ((pySplitWs s.toList).map pyCapitalize))).map pyCapitalize))) := rfl
      rw [hout, splitWs_joinWords _ hprops, List.map_map]
      have hcc : (pyCapitalize ∘ pyCapitalize) = pyCapitalize := by
        funext w
        exact pyCapitalize_idem w
      rw [hcc]

/-- Helper: one patient row through `limpiar_pacientes` twice equals
once — every column pass is idempotent and the score is recomputed from
the (unchanged) cleaned fields. -/
theorem limpiarPacienteRow_idem (hoy : Date) (r : PacienteRow) :
    limpiarPacienteRow hoy (limpiarPacienteRow hoy r) = limpiarPacienteRow hoy r := by
  simp only [limpiarPacienteRow, normalizarSexo_idem, calcular_edad_idem,
    limpiar_telefono_idem, validar_email_idem, normalizar_nombre_idem]
  rfl

/-- Helper: the whole patient pass is idempotent. -/
theorem limpiarPacientes_idem (hoy : Date) (ps : List PacienteRow) :
    limpiarPacientes hoy (limpiarPacientes hoy ps) = limpiarPacientes hoy ps := by
  unfold limpiarPacientes
  rw [List.map_map]
  congr 1
  funext r
  exact limpiarPacienteRow_idem hoy r

/-- Helper: a decimal digit character is one of the ten digits. -/
theorem digitChar_mem (d : Nat) : digitChar d ∈ digitChars := by
  unfold digitChar List.getD
  cases h : digitChars.get? d with
  | none => simp [h]; decide
  | some c =>
      simp only [h, Option.getD_some]
      exact List.get?_mem h

/-- Helper: digit characters are digits and are neither whitespace, date
separators, nor signs. -/
theorem digitChars_props : ∀ c ∈ digitChars,
    Char.isDigit c = true ∧ pyIsSpace c = false ∧ dateSep c = false ∧
    c ≠ '+' ∧ c ≠ '-' := by decide

/-- Helper: decimal rendering produces digit characters only. -/
theorem natCharsAux_subset (fuel : Nat) : ∀ n, ∀ c ∈ natCharsAux fuel n, c ∈ digitChars := by
  induction fuel with
  | zero => intro n c hc; simp [natCharsAux] at hc
  | succ f ih =>
      intro n c hc
      simp only [natCharsAux] at hc
      split at hc
      · simp only [List.mem_singleton] at hc
        subst hc
        exact digitChar_mem n
      · rcases List.mem_append.mp hc with h | h
        · exact ih (n / 10) c h
        · simp only [List.mem_singleton] at h
          subst h
          exact digitChar_mem (n % 10)

/-- Helper: `natChars` produces digit characters only. -/
theorem natChars_subset (n : Nat) : ∀ c ∈ natChars n, c ∈ digitChars :=
  natCharsAux_subset (n + 1) n

/-- Helper: decimal rendering with fuel is nonempty. -/
theorem natCharsAux_ne_nil (fuel n : Nat) (h : 1 ≤ fuel) : natCharsAux fuel n ≠ [] := by
  cases fuel with
  | zero => omega
  | succ f =>
      simp only [natCharsAux]
      split
      · simp
      · simp

/-- Helper: `natChars` is nonempty. -/
theorem natChars_ne_nil (n : Nat) : natChars n ≠ [] :=
  natCharsAux_ne_nil (n + 1) n (by omega)

/-- Helper: `pad2` produces digit characters only. -/
theorem pad2_subset (n : Nat) : ∀ c ∈ pad2 n, c ∈ digitChars := by
  unfold pad2
  split
  · intro c hc
    rcases List.mem_cons.mp hc with rfl | h
    · decide
    · exact natChars_subset n c h
  · exact natChars_subset n

/-- Helper: `pad2` is nonempty. -/
theorem pad2_ne_nil (n : Nat) : pad2 n ≠ [] := by
  unfold pad2
  split
  · simp
  · exact natChars_ne_nil n

/-- Helper: a list with non-whitespace first and last characters strips
to itself. -/
theorem pyStrip_cons_snoc (c : Char) (m : List Char) (e : Char)
    (hc : pyIsSpace c = false) (he : pyIsSpace e = false) :
    pyStrip (c :: (m ++ [e])) = c :: (m ++ [e]) := by
  unfold pyStrip
  rw [List.dropWhile_cons, if_neg (by simp [hc])]
  rw [show (c :: (m ++ [e])).reverse = e :: (m.reverse ++ [c]) by simp]
  rw [List.dropWhile_cons, if_neg (by simp [he])]
  rw [show (e :: (m.reverse ++ [c])).reverse = c :: (m ++ [e]) by simp]

/-- Helper: the dash split of a stringified timestamp gives the year
digits, the month digits, and the day digits glued to the time. -/
theorem tsChars_splitDash (d : Date) :
    splitOnPred (fun c => c = '-') (tsChars d) =
      [natChars d.anio.toNat, pad2 d.mes, pad2 d.dia ++ " 00:00:00".toList] := by
  have hA : ∀ c ∈ natChars d.anio.toNat, (decide (c = '-')) = false := fun c hc =>
    decide_eq_false (digitChars_props c (natChars_subset _ c hc)).2.2.2.2
  have hB : ∀ c ∈ pad2 d.mes, (decide (c = '-')) = false := fun c hc =>
    decide_eq_false (digitChars_props c (pad2_subset _ c hc)).2.2.2.2
  have hC : ∀ c ∈ pad2 d.dia ++ " 00:00:00".toList, (decide (c = '-')) = false := by
    intro c hc
    rcases List.mem_append.mp hc with h | h
    · exact decide_eq_false (digitChars_props c (pad2_subset _ c h)).2.2.2.2
    · have hT : ∀ x ∈ " 00:00:00".toList, (decide (x = '-')) = false := by decide
      exact hT c h
  show splitOnPred (fun c => c = '-') (natChars d.anio.toNat ++ '-' ::
      (pad2 d.mes ++ '-' :: (pad2 d.dia ++ " 00:00:00".toList))) = _
  rw [splitOnPred_sep _ _ _ '-' (by decide) hA, splitOnPred_sep _ _ _ '-' (by decide) hB,
    splitOnPred_noSep _ _ hC]

/-- Helper: likewise for the dash/slash/dot split of the resolver. -/
theorem tsChars_splitSeps (d : Date) :
    splitOnPred dateSep (tsChars d) =
      [natChars d.anio.toNat, pad2 d.mes, pad2 d.dia ++ " 00:00:00".toList] := by
  have hA : ∀ c ∈ natChars d.anio.toNat, dateSep c = false := fun c hc =>
    (digitChars_props c (natChars_subset _ c hc)).2.2.1
  have hB : ∀ c ∈ pad2 d.mes, dateSep c = false := fun c hc =>
    (digitChars_props c (pad2_subset _ c hc)).2.2.1
  have hC : ∀ c ∈ pad2 d.dia ++ " 00:00:00".toList, dateSep c = false := by
    intro c hc
    rcases List.mem_append.mp hc with h | h
    · exact (digitChars_props c (pad2_subset _ c h)).2.2.1
    · have hT : ∀ x ∈ " 00:00:00".toList, dateSep x = false := by decide
      exact hT c h
  show splitOnPred dateSep (natChars d.anio.toNat ++ '-' ::
      (pad2 d.mes ++ '-' :: (pad2 d.dia ++ " 00:00:00".toList))) = _
  rw [splitOnPred_sep _ _ _ '-' (by decide) hA, splitOnPred_sep _ _ _ '-' (by decide) hB,
    splitOnPred_noSep _ _ hC]

/-- Helper: a stringified timestamp starts with a digit and ends with
the final `0` of `00:00:00`. -/
theorem tsChars_shape (d : Date) : ∃ c mid, tsChars d = c :: (mid ++ ['0']) ∧ c ∈ digitChars := by
  obtain ⟨c, cs, hcons⟩ : ∃ c cs, natChars d.anio.toNat = c :: cs := by
    cases h : natChars d.anio.toNat with
    | nil => exact absurd h (natChars_ne_nil _)
    | cons c cs => exact ⟨c, cs, rfl⟩
  refine ⟨c, cs ++ '-' :: (pad2 d.mes ++ '-' :: (pad2 d.dia ++ " 00:00:0".toList)), ?_, ?_⟩
  · show natChars d.anio.toNat ++ '-' :: (pad2 d.mes ++ '-' ::
      (pad2 d.dia ++ " 00:00:00".toList)) = _
    rw [hcons]
    simp [List.append_assoc]
  · exact natChars_subset _ c (hcons ▸ List.mem_cons_self c cs)

/-- Helper: a stringified timestamp is already stripped. -/
theorem pyStrip_tsChars (d : Date) : pyStrip (tsChars d) = tsChars d := by
  obtain ⟨c, mid, hshape, hcd⟩ := tsChars_shape d
  rw [hshape]
  exact pyStrip_cons_snoc c mid '0' (digitChars_props c hcd).2.1 (by decide)

/-- Helper: a stringified timestamp is nonempty. -/
theorem tsChars_ne_nil (d : Date) : (tsChars d).isEmpty = false := by
  obtain ⟨c, mid, hshape, _⟩ := tsChars_shape d
  rw [hshape]
  rfl

/-- Helper: the strict `%Y-%m-%d` parse rejects a stringified timestamp —
its third dash component carries the ` 00:00:00` time suffix. -/
theorem strictParse_tsChars (d : Date) : pyStrictParseDate (tsChars d) = none := by
  simp only [pyStrictParseDate, tsChars_splitDash]
  have hno : ¬((natChars d.anio.toNat).all Char.isDigit = true ∧
      1 ≤ (natChars d.anio.toNat).length ∧ (natChars d.anio.toNat).length ≤ 4 ∧
      (pad2 d.mes).all Char.isDigit = true ∧ 1 ≤ (pad2 d.mes).length ∧
      (pad2 d.mes).length ≤ 2 ∧
      (pad2 d.dia ++ " 00:00:00".toList).all Char.isDigit = true ∧
      1 ≤ (pad2 d.dia ++ " 00:00:00".toList).length ∧
      (pad2 d.dia ++ " 00:00:00".toList).length ≤ 2) := by
    intro h
    have h9 := h.2.2.2.2.2.2.2.2
    rw [List.length_append] at h9
    have hlen : 1 ≤ (pad2 d.dia).length :=
      List.length_pos.mpr (pad2_ne_nil d.dia)
    have : (" 00:00:00".toList).length = 9 := rfl
    omega
  rw [if_neg hno]

/-- Helper: `int(...)` fails on the day-digits-plus-time component. -/
theorem pyInt_pad2_time (n : Nat) : pyInt (pad2 n ++ " 00:00:00".toList) = none := by
  obtain ⟨c, cs, hcons⟩ : ∃ c cs, pad2 n = c :: cs := by
    cases h : pad2 n with
    | nil => exact absurd h (pad2_ne_nil n)
    | cons c cs => exact ⟨c, cs, rfl⟩
  have hcd : c ∈ digitChars := pad2_subset n c (hcons ▸ List.mem_cons_self c cs)
  have hshape : pad2 n ++ " 00:00:00".toList =
      c :: ((cs ++ " 00:00:0".toList) ++ ['0']) := by
    rw [hcons]
    simp [List.append_assoc]
  have hstrip := pyStrip_cons_snoc c (cs ++ " 00:00:0".toList) '0'
    (digitChars_props c hcd).2.1 (by decide)
  simp only [pyInt, hshape, hstrip]
  rw [if_neg (by simpa using (digitChars_props c hcd).2.2.2.1),
      if_neg (by simpa using (digitChars_props c hcd).2.2.2.2)]
  have hall : (c :: ((cs ++ " 00:00:0".toList) ++ ['0'])).all Char.isDigit = false := by
    have hsp : ' ' ∈ c :: ((cs ++ " 00:00:0".toList) ++ ['0']) := by
      apply List.mem_cons_of_mem
      apply List.mem_append_left
      apply List.mem_append_right
      decide
    rcases hA : (c :: ((cs ++ " 00:00:0".toList) ++ ['0'])).all Char.isDigit with _ | _
    · rfl
    · have := List.all_eq_true.mp hA ' ' hsp
      simp at this
  simp [digitsToNat, hall]

/-- Helper (the heart of the non-idempotence): re-resolving an
already-resolved date cell yields `NaT` — `str(Timestamp)` is
`YYYY-MM-DD 00:00:00`, which fails the strict parse, splits into 3 parts
on the dashes, and fails the `int` conversion of the third part, landing
in the `ERROR:` handler. -/
theorem corregir_ts_fst (d : Date) :
    (corregir_fecha_inteligente (DateCell.ts d)).1 = DateCell.null := by
  simp only [corregir_fecha_inteligente, dateCellChars, pyStrip_tsChars, tsChars_ne_nil,
    strictParse_tsChars, tsChars_splitSeps, Bool.false_eq_true, if_false]
  have h3 : pyInt (pad2 d.dia ++ [' ', '0', '0', ':', '0', '0', ':', '0', '0']) = none :=
    pyInt_pad2_time d.dia
  cases hA : pyInt (natChars d.anio.toNat) <;> cases hB : pyInt (pad2 d.mes) <;>
    simp [hA, hB, h3]

/-- Helper: step 6 keeps the date column. -/
theorem fecha_anioMesFila (r : CitaRow) : (anioMesFila r).fecha_cita = r.fecha_cita := rfl

/-- Helper: step 5 keeps the date column. -/
theorem fecha_pacienteValidoFila (ids : List (Option Int)) (r : CitaRow) :
    (pacienteValidoFila ids r).fecha_cita = r.fecha_cita := rfl

/-- Helper: step 4 keeps the date column. -/
theorem fecha_determinarEstadoFila (hoy : Date) (r : CitaRow) :
    (determinarEstadoFila hoy r).fecha_cita = r.fecha_cita := rfl

/-- Helper: step 3 keeps the date column. -/
theorem fecha_completar_costo (keys : List String) (med : String → Option Rat) (r : CitaRow) :
    (completar_costo keys med r).fecha_cita = r.fecha_cita := by
  unfold completar_costo
  rcases hc : r.costo with _ | q
  · rcases he : r.especialidad with _ | e
    · simp [hc, he]
    · simp only [hc, he]
      split
      · rfl
      · rfl
  · simp [hc]

/-- Helper: step 2 writes the future-filtered date. -/
theorem fecha_maxFuturoFila (hoy : Date) (r : CitaRow) :
    (maxFuturoFila hoy r).fecha_cita = aplicarMaxFuturo hoy r.fecha_cita := rfl

/-- Helper: step 1 writes the resolver output. -/
theorem fecha_corregirFilaFecha (r : CitaRow) :
    (corregirFilaFecha r).fecha_cita = (corregir_fecha_inteligente r.fecha_cita).1 := rfl

/-- C5 (amended): cleaning is idempotent on the *patients* table —
re-applying the patient pass to its own output changes nothing, so no new
nulls appear and every quality score is unchanged — but *not* on the
appointments table: re-applying `limpiar_citas` turns every resolved
(non-null) appointment date into a null, because the stringified timestamp
no longer parses. -/
theorem c5_amended :
    (∀ (hoy : Date) (ps : List PacienteRow),
       limpiarPacientes hoy (limpiarPacientes hoy ps) = limpiarPacientes hoy ps) ∧
    (∀ (hoy : Date) (pacs : List PacienteRow) (rows : List CitaRow) (i : Nat)
       (r : CitaRow) (d : Date), rows[i]? = some r → r.fecha_cita = DateCell.ts d →
       ((limpiarCitas hoy pacs rows)[i]?.map (fun x => x.fecha_cita)) = some DateCell.null) := by
  refine ⟨limpiarPacientes_idem, ?_⟩
  intro hoy pacs rows i r d hget hts
  rw [limpiarCitas_eq_map, List.getElem?_map, hget]
  simp only [Option.map_some', fecha_anioMesFila, fecha_pacienteValidoFila,
    fecha_determinarEstadoFila, fecha_completar_costo, fecha_maxFuturoFila,
    fecha_corregirFilaFecha, hts, corregir_ts_fst]
  rfl

/-- C5 (counterexample): re-applying the clean pipeline to its own output
introduces a new null: the appointment date resolves to `2024-05-13` on
the first clean and to null on the second. -/
theorem c5_counterexample :
    (((ejecutarPipeline fechaHoy (pacientesEjemplo, citasEjemplo)).2)[0]?.map
        (fun x => x.fecha_cita)) = some (DateCell.ts ⟨2024, 5, 13⟩) ∧
    (((ejecutarPipeline fechaHoy
          (ejecutarPipeline fechaHoy (pacientesEjemplo, citasEjemplo))).2)[0]?.map
        (fun x => x.fecha_cita)) = some DateCell.null := by
  constructor
  · rfl
  · rfl

/-- C5 (witness): the amended theorem applied at concrete tables — the
patient pass is a fixed point on the example patient, and an appointment
row holding the resolved timestamp `2024-05-13` comes out of a re-clean
with a null date. -/
theorem c5_witness :
    limpiarPacientes fechaHoy (limpiarPacientes fechaHoy pacientesEjemplo) =
      limpiarPacientes fechaHoy pacientesEjemplo ∧
    ((limpiarCitas fechaHoy [] [citaConFechaResuelta])[0]?.map
        (fun x => x.fecha_cita)) = some DateCell.null :=
  ⟨c5_amended.1 fechaHoy pacientesEjemplo,
   c5_amended.2 fechaHoy [] [citaConFechaResuelta] 0 citaConFechaResuelta
     ⟨2024, 5, 13⟩ rfl rfl⟩
